import Mathlib

/-!
Shallow embedding of the "Targeting & Overlay Tracking Engine" of the
chrome-chatbot web-guide extension (server `server.js`, content script
`src/unnamed/part_002`, side-panel script `src/unnamed/part_001`).

Modelling conventions:
* JavaScript numbers are modelled as rationals `ℚ` (all arithmetic the
  embedded code performs — `+ - * /`, `Math.round`, `Math.max/min` — is
  exact on the values the claims concern; where `NaN` is reachable and
  semantically relevant, an explicit `JSNum` type with a `nan`
  constructor is used instead).
* `Math.round` is JavaScript rounding: half-way cases round toward `+∞`.
* Missing / `undefined` / `null` JavaScript fields are `Option` values;
  the `a ?? b` operator is `Option.orElse`, `a || b` on numbers maps
  falsy (`0`, `NaN`, missing) to the fallback.
* Strings are Lean `String`s; `String.prototype.includes` is the infix
  test on the character lists.  JavaScript `toLowerCase` is modelled by
  `Char.toLower` (ASCII case mapping; the Korean text in the sources has
  no case).  `\s` is modelled by `Char.isWhitespace`.
-/

namespace WebGuide

/-- JavaScript `Math.round`: round half toward positive infinity. -/
def jsRound (q : ℚ) : ℤ := ⌊q + 1/2⌋

theorem jsRound_eq_iff {q : ℚ} {n : ℤ} :
    jsRound q = n ↔ (n : ℚ) ≤ q + 1/2 ∧ q + 1/2 < (n : ℚ) + 1 := by
  unfold jsRound
  exact Int.floor_eq_iff

theorem jsRound_intCast (n : ℤ) : jsRound (n : ℚ) = n := by
  rw [jsRound_eq_iff]
  constructor <;> norm_num

theorem jsRound_eval (q : ℚ) (n : ℤ) (h1 : (n : ℚ) ≤ q + 1/2)
    (h2 : q + 1/2 < (n : ℚ) + 1) : jsRound q = n :=
  jsRound_eq_iff.mpr ⟨h1, h2⟩

/-! ## Coordinate normalizer (content script, `src/unnamed/part_002`, `showGuides`)

`bestViewportRect` maps one externally supplied overlay rectangle into
the current viewport, under the declared coordinate space
(`opts.coord_space`, default `"document"`). -/

/-- One overlay rectangle as handed to `showGuides` (fields `x`, `y`,
`width`, `height`; the `x ?? left ?? 0` / `y ?? top ?? 0` fallbacks are
already resolved into the rational fields). -/
structure OvRect where
  x : ℚ
  y : ℚ
  width : ℚ
  height : ℚ
  deriving Repr, DecidableEq

/-- Result of `bestViewportRect`: a viewport rectangle `{l, t, w, h}`. -/
structure PickRect where
  l : ℚ
  t : ℚ
  w : ℚ
  h : ℚ
  deriving Repr, DecidableEq

/-- The closure context of `showGuides`: `dpr`, current viewport size,
captured scroll (`opts.scroll`), the two live scroll sources read by
`getScrollState` (`window.scrollX/Y` and
`document.scrollingElement.scrollLeft/Top`), the screenshot pixel size
(`opts.screenshot_info`, `none` when absent), and the declared
coordinate space string. -/
structure GuideEnv where
  dpr : ℚ
  vw : ℚ
  vh : ℚ
  capturedSX : ℚ
  capturedSY : ℚ
  winScrollX : ℚ
  winScrollY : ℚ
  docScrollX : ℚ
  docScrollY : ℚ
  shot : Option (ℚ × ℚ)
  coordSpace : String
  deriving Repr, DecidableEq

/-- `getScrollState().sx = Math.max(window.scrollX, scrollingElement.scrollLeft)`. -/
def curScrollX (env : GuideEnv) : ℚ := max env.winScrollX env.docScrollX

/-- `getScrollState().sy`. -/
def curScrollY (env : GuideEnv) : ℚ := max env.winScrollY env.docScrollY

/-- `getScrollState().dx`: scroll delta versus the captured scroll. -/
def scrollDX (env : GuideEnv) : ℚ := curScrollX env - env.capturedSX

/-- `getScrollState().dy`. -/
def scrollDY (env : GuideEnv) : ℚ := curScrollY env - env.capturedSY

/-- `scaleX = (shot && shot.width) ? shot.width / vp.width : dpr`.
Screenshot width `0` is falsy, hence falls back to `dpr`. -/
def scaleX (env : GuideEnv) : ℚ :=
  match env.shot with
  | some (w, _) => if w ≠ 0 then w / env.vw else env.dpr
  | none => env.dpr

/-- `scaleY`, analogously from the screenshot pixel height. -/
def scaleY (env : GuideEnv) : ℚ :=
  match env.shot with
  | some (_, h) => if h ≠ 0 then h / env.vh else env.dpr
  | none => env.dpr

/-- `intersectionScore(l, t, w, h)`: intersection area of the rectangle
with the `[0,vw] × [0,vh]` viewport, zeroed for rectangles wider/taller
than 1.5 viewports or thinner than 2 px. -/
def intersectionScore (env : GuideEnv) (l t w h : ℚ) : ℚ :=
  let x1 := max 0 l
  let y1 := max 0 t
  let x2 := min env.vw (l + w)
  let y2 := min env.vh (t + h)
  let iw := max 0 (x2 - x1)
  let ih := max 0 (y2 - y1)
  let area := iw * ih
  let tooHuge := w > env.vw * (3/2) ∨ h > env.vh * (3/2)
  let tooTiny := w < 2 ∨ h < 2
  if tooHuge ∨ tooTiny then 0 else area

/-- Score of a candidate `PickRect` (convenience wrapper). -/
def pickScore (env : GuideEnv) (p : PickRect) : ℚ :=
  intersectionScore env p.l p.t p.w p.h

/-- `ow = Math.max(1, Math.round(Number(ov.width || 0)))`. -/
def normW (ov : OvRect) : ℚ := max 1 (jsRound ov.width : ℚ)

/-- `oh = Math.max(1, Math.round(Number(ov.height || 0)))`. -/
def normH (ov : OvRect) : ℚ := max 1 (jsRound ov.height : ℚ)

/-- The two screenshot-space hypotheses `h1` (full-page screenshot:
subtract captured scroll and the scroll delta) and `h2`
(viewport-cropped screenshot: subtract only the delta). -/
def screenshotH1 (env : GuideEnv) (ov : OvRect) : PickRect :=
  { l := jsRound (ov.x / scaleX env - env.capturedSX - scrollDX env)
    t := jsRound (ov.y / scaleY env - env.capturedSY - scrollDY env)
    w := jsRound (normW ov / scaleX env)
    h := jsRound (normH ov / scaleY env) }

def screenshotH2 (env : GuideEnv) (ov : OvRect) : PickRect :=
  { l := jsRound (ov.x / scaleX env - scrollDX env)
    t := jsRound (ov.y / scaleY env - scrollDY env)
    w := jsRound (normW ov / scaleX env)
    h := jsRound (normH ov / scaleY env) }

/-- Clamp applied to the chosen screenshot-space hypothesis:
`l ∈ [-vw, vw]`, `t ∈ [-vh, vh]`, `w ∈ [1, min vw _]`, `h ∈ [1, min vh _]`. -/
def clampPick (env : GuideEnv) (p : PickRect) : PickRect :=
  { l := max (-env.vw) (min env.vw p.l)
    t := max (-env.vh) (min env.vh p.t)
    w := max 1 (min env.vw p.w)
    h := max 1 (min env.vh p.h) }

/-- Fallback candidate 0 (document interpretation: subtract current scroll). -/
def fbCand0 (env : GuideEnv) (ov : OvRect) : PickRect :=
  { l := jsRound (ov.x - curScrollX env), t := jsRound (ov.y - curScrollY env)
    w := normW ov, h := normH ov }

/-- Fallback candidate 1 (viewport interpretation: use as-is). -/
def fbCand1 (_env : GuideEnv) (ov : OvRect) : PickRect :=
  { l := jsRound ov.x, t := jsRound ov.y, w := normW ov, h := normH ov }

/-- Fallback candidate 2 (document interpretation after dpr division). -/
def fbCand2 (env : GuideEnv) (ov : OvRect) : PickRect :=
  { l := jsRound (ov.x / env.dpr - curScrollX env)
    t := jsRound (ov.y / env.dpr - curScrollY env)
    w := jsRound (normW ov / env.dpr), h := jsRound (normH ov / env.dpr) }

/-- Fallback candidate 3 (viewport interpretation after dpr division). -/
def fbCand3 (env : GuideEnv) (ov : OvRect) : PickRect :=
  { l := jsRound (ov.x / env.dpr), t := jsRound (ov.y / env.dpr)
    w := jsRound (normW ov / env.dpr), h := jsRound (normH ov / env.dpr) }

/-- The four fallback candidates tried for an undeclared (or unknown)
coordinate space, in source order: document, viewport, document with
device-pixel-ratio division, viewport with device-pixel-ratio division. -/
def fallbackCands (env : GuideEnv) (ov : OvRect) : List PickRect :=
  [fbCand0 env ov, fbCand1 env ov, fbCand2 env ov, fbCand3 env ov]

/-- The fallback selection loop: start with candidate 0 and replace the
running best only on a strictly greater intersection score. -/
def bestFallback (env : GuideEnv) (best : PickRect) (bestScore : ℚ) :
    List PickRect → PickRect
  | [] => best
  | c :: rest =>
      let s := pickScore env c
      if s > bestScore then bestFallback env c s rest
      else bestFallback env best bestScore rest

/-- `bestViewportRect(ov)` from `showGuides`. -/
def bestViewportRect (env : GuideEnv) (ov : OvRect) : PickRect :=
  if env.coordSpace = "screenshot" then
    let h1 := screenshotH1 env ov
    let h2 := screenshotH2 env ov
    let s1 := pickScore env h1
    let s2 := pickScore env h2
    let pick := if s2 > s1 then h2 else h1
    clampPick env pick
  else if env.coordSpace = "viewport" then
    { l := jsRound ov.x, t := jsRound ov.y, w := normW ov, h := normH ov }
  else if env.coordSpace = "document" then
    { l := jsRound (ov.x - curScrollX env), t := jsRound (ov.y - curScrollY env)
      w := normW ov, h := normH ov }
  else
    bestFallback env (fbCand0 env ov) (pickScore env (fbCand0 env ov))
      [fbCand1 env ov, fbCand2 env ov, fbCand3 env ov]

/-- The initial-render guard in `renderAll`: a highlight and label are
created for an overlay unless a coordinate is non-finite (impossible in
the rational model) or the resolved width or height is below 2 px. -/
def renderedAtInit (env : GuideEnv) (ov : OvRect) : Bool :=
  let best := bestViewportRect env ov
  !(decide (best.w < 2 ∨ best.h < 2))

/-! ### Branch lemmas for `bestViewportRect` -/

theorem bestViewportRect_screenshot (env : GuideEnv) (ov : OvRect)
    (h : env.coordSpace = "screenshot") :
    bestViewportRect env ov =
      clampPick env
        (if pickScore env (screenshotH2 env ov) > pickScore env (screenshotH1 env ov)
          then screenshotH2 env ov else screenshotH1 env ov) := by
  unfold bestViewportRect
  rw [if_pos h]

theorem bestViewportRect_viewport (env : GuideEnv) (ov : OvRect)
    (h : env.coordSpace = "viewport") :
    bestViewportRect env ov =
      { l := jsRound ov.x, t := jsRound ov.y, w := normW ov, h := normH ov } := by
  unfold bestViewportRect
  rw [if_neg (by rw [h]; decide), if_pos h]

theorem bestViewportRect_document (env : GuideEnv) (ov : OvRect)
    (h : env.coordSpace = "document") :
    bestViewportRect env ov =
      { l := jsRound (ov.x - curScrollX env), t := jsRound (ov.y - curScrollY env)
        w := normW ov, h := normH ov } := by
  unfold bestViewportRect
  rw [if_neg (by rw [h]; decide), if_neg (by rw [h]; decide), if_pos h]

theorem bestViewportRect_fallback (env : GuideEnv) (ov : OvRect)
    (h1 : env.coordSpace ≠ "screenshot") (h2 : env.coordSpace ≠ "viewport")
    (h3 : env.coordSpace ≠ "document") :
    bestViewportRect env ov =
      bestFallback env (fbCand0 env ov) (pickScore env (fbCand0 env ov))
        [fbCand1 env ov, fbCand2 env ov, fbCand3 env ov] := by
  unfold bestViewportRect
  rw [if_neg h1, if_neg h2, if_neg h3]

/-! ### Properties of the fallback selection loop -/

theorem bestFallback_mem (env : GuideEnv) :
    ∀ (l : List PickRect) (best : PickRect) (s : ℚ),
      bestFallback env best s l = best ∨ bestFallback env best s l ∈ l := by
  intro l
  induction l with
  | nil => intro best s; left; rfl
  | cons c rest ih =>
      intro best s
      unfold bestFallback
      by_cases hgt : pickScore env c > s
      · rw [if_pos hgt]
        rcases ih c (pickScore env c) with h | h
        · right; rw [h]; exact List.mem_cons_self _ _
        · right; exact List.mem_cons_of_mem _ h
      · rw [if_neg hgt]
        rcases ih best s with h | h
        · left; exact h
        · right; exact List.mem_cons_of_mem _ h

theorem bestFallback_score_ge (env : GuideEnv) :
    ∀ (l : List PickRect) (best : PickRect),
      ∀ c ∈ best :: l,
        pickScore env c ≤ pickScore env (bestFallback env best (pickScore env best) l) := by
  intro l
  induction l with
  | nil =>
      intro best c hc
      rcases List.mem_cons.mp hc with h | h
      · subst h; exact le_refl _
      · cases h
  | cons c0 rest ih =>
      intro best c hc
      unfold bestFallback
      by_cases hgt : pickScore env c0 > pickScore env best
      · rw [if_pos hgt]
        rcases List.mem_cons.mp hc with h | h
        · rw [h]
          exact le_trans (le_of_lt hgt) (ih c0 c0 (List.mem_cons_self _ _))
        · exact ih c0 c (by exact h)
      · rw [if_neg hgt]
        rcases List.mem_cons.mp hc with h | h
        · rw [h]; exact ih best best (List.mem_cons_self _ _)
        · rcases List.mem_cons.mp h with h2 | h2
          · rw [h2]
            exact le_trans (le_of_not_lt hgt) (ih best best (List.mem_cons_self _ _))
          · exact ih best c (List.mem_cons_of_mem _ h2)

theorem bestFallback_allzero (env : GuideEnv) :
    ∀ (l : List PickRect) (best : PickRect),
      pickScore env best = 0 → (∀ c ∈ l, pickScore env c = 0) →
      bestFallback env best (pickScore env best) l = best := by
  intro l
  induction l with
  | nil => intro best _ _; rfl
  | cons c0 rest ih =>
      intro best hb hl
      unfold bestFallback
      have hc0 : pickScore env c0 = 0 := hl c0 (List.mem_cons_self _ _)
      rw [if_neg (by rw [hb, hc0]; exact lt_irrefl 0)]
      exact ih best hb (fun c hc => hl c (List.mem_cons_of_mem _ hc))

/-! ## Claim C2: clamping of resolved rectangles -/

/-- Concrete input for refuting claim C2: a declared `viewport`-space
overlay whose `x` lies far beyond one viewport extent. -/
def c2Env : GuideEnv :=
  { dpr := 1, vw := 100, vh := 100, capturedSX := 0, capturedSY := 0
    winScrollX := 0, winScrollY := 0, docScrollX := 0, docScrollY := 0
    shot := none, coordSpace := "viewport" }

def c2Ov : OvRect := { x := 1000, y := 0, width := 10, height := 10 }

/-- C2 counterexample: for a `viewport`-space rectangle the resolver
performs no clamping at all — with a 100 px viewport and `x = 1000`
the resolved left edge is 1000, outside `[-vw, vw]`. -/
theorem c2_counterexample :
    ¬ (-(c2Env.vw) ≤ (bestViewportRect c2Env c2Ov).l ∧
       (bestViewportRect c2Env c2Ov).l ≤ c2Env.vw ∧
       -(c2Env.vh) ≤ (bestViewportRect c2Env c2Ov).t ∧
       (bestViewportRect c2Env c2Ov).t ≤ c2Env.vh) := by
  rw [bestViewportRect_viewport c2Env c2Ov rfl]
  have hx : jsRound c2Ov.x = 1000 :=
    jsRound_eval _ _ (by norm_num [c2Ov]) (by norm_num [c2Ov])
  norm_num [c2Env, hx]

/-- C2 (amended): the ±one-viewport clamp (`l ∈ [-vw, vw]`,
`t ∈ [-vh, vh]`) is applied only in the `screenshot` coordinate-space
branch of `bestViewportRect`; the `document`, `viewport` and unknown
branches return the resolved rectangle unclamped. -/
theorem c2_screenshot_clamp (env : GuideEnv) (ov : OvRect)
    (hcs : env.coordSpace = "screenshot") (hvw : 0 ≤ env.vw) (hvh : 0 ≤ env.vh) :
    -env.vw ≤ (bestViewportRect env ov).l ∧ (bestViewportRect env ov).l ≤ env.vw ∧
    -env.vh ≤ (bestViewportRect env ov).t ∧ (bestViewportRect env ov).t ≤ env.vh := by
  rw [bestViewportRect_screenshot env ov hcs]
  simp only [clampPick]
  exact ⟨le_max_left _ _, max_le (by linarith) (min_le_left _ _),
         le_max_left _ _, max_le (by linarith) (min_le_left _ _)⟩

/-- Concrete screenshot-space input exercising `c2_screenshot_clamp`. -/
def c2WEnv : GuideEnv :=
  { dpr := 2, vw := 100, vh := 80, capturedSX := 0, capturedSY := 0
    winScrollX := 0, winScrollY := 0, docScrollX := 0, docScrollY := 0
    shot := some (200, 160), coordSpace := "screenshot" }

def c2WOv : OvRect := { x := 50000, y := -70000, width := 10, height := 10 }

theorem c2_screenshot_clamp_witness :
    -c2WEnv.vw ≤ (bestViewportRect c2WEnv c2WOv).l ∧
    (bestViewportRect c2WEnv c2WOv).l ≤ c2WEnv.vw ∧
    -c2WEnv.vh ≤ (bestViewportRect c2WEnv c2WOv).t ∧
    (bestViewportRect c2WEnv c2WOv).t ≤ c2WEnv.vh :=
  c2_screenshot_clamp c2WEnv c2WOv rfl (by norm_num [c2WEnv]) (by norm_num [c2WEnv])

/-! ## Claim C3: document-space resolution -/

/-- Concrete input for refuting claim C3: a fractional `x` and a zero
width get rounded / floored, so the result is not exactly
`rect - scroll`. -/
def c3Env : GuideEnv :=
  { dpr := 1, vw := 100, vh := 100, capturedSX := 0, capturedSY := 0
    winScrollX := 0, winScrollY := 0, docScrollX := 0, docScrollY := 0
    shot := none, coordSpace := "document" }

def c3Ov : OvRect := { x := 1/2, y := 0, width := 0, height := 5 }

/-- C3 counterexample: a document-space rectangle with `width = 0` is
resolved with width `max(1, round 0) = 1`, so the resolved rectangle
does not leave width and height unchanged. -/
theorem c3_counterexample :
    ¬ ((bestViewportRect c3Env c3Ov).l = c3Ov.x - curScrollX c3Env ∧
       (bestViewportRect c3Env c3Ov).t = c3Ov.y - curScrollY c3Env ∧
       (bestViewportRect c3Env c3Ov).w = c3Ov.width ∧
       (bestViewportRect c3Env c3Ov).h = c3Ov.height) := by
  rw [bestViewportRect_document c3Env c3Ov rfl]
  have hW : c3Ov.width = 0 := by norm_num [c3Ov]
  have hnw : normW c3Ov = 1 := by
    unfold normW
    rw [show c3Ov.width = ((0 : ℤ) : ℚ) from by norm_num [c3Ov], jsRound_intCast]
    norm_num
  norm_num [hnw, hW]

/-- C3 (amended): for `document` space the resolver subtracts the
current scroll with each coordinate rounded to the nearest integer and
each extent rounded and floored at 1 px; in particular it is exact — and
independent of the device-pixel ratio — whenever `x - scrollX`,
`y - scrollY` are integers and width and height are integers ≥ 1. -/
theorem c3_document_exact (env : GuideEnv) (ov : OvRect)
    (hcs : env.coordSpace = "document")
    (hx : ∃ n : ℤ, ov.x - curScrollX env = (n : ℚ))
    (hy : ∃ n : ℤ, ov.y - curScrollY env = (n : ℚ))
    (hw : ∃ n : ℤ, 1 ≤ n ∧ ov.width = (n : ℚ))
    (hh : ∃ n : ℤ, 1 ≤ n ∧ ov.height = (n : ℚ)) :
    (bestViewportRect env ov).l = ov.x - curScrollX env ∧
    (bestViewportRect env ov).t = ov.y - curScrollY env ∧
    (bestViewportRect env ov).w = ov.width ∧
    (bestViewportRect env ov).h = ov.height ∧
    ∀ d : ℚ, bestViewportRect { env with dpr := d } ov = bestViewportRect env ov := by
  obtain ⟨nx, hnx⟩ := hx
  obtain ⟨ny, hny⟩ := hy
  obtain ⟨nw, hnw1, hnw⟩ := hw
  obtain ⟨nh, hnh1, hnh⟩ := hh
  rw [bestViewportRect_document env ov hcs]
  refine ⟨?_, ?_, ?_, ?_, ?_⟩
  · show ((jsRound (ov.x - curScrollX env) : ℤ) : ℚ) = ov.x - curScrollX env
    rw [hnx, jsRound_intCast]
  · show ((jsRound (ov.y - curScrollY env) : ℤ) : ℚ) = ov.y - curScrollY env
    rw [hny, jsRound_intCast]
  · show normW ov = ov.width
    unfold normW
    rw [hnw, jsRound_intCast]
    exact max_eq_right (by exact_mod_cast hnw1)
  · show normH ov = ov.height
    unfold normH
    rw [hnh, jsRound_intCast]
    exact max_eq_right (by exact_mod_cast hnh1)
  · intro d
    rw [bestViewportRect_document { env with dpr := d } ov hcs]
    rfl

/-- Concrete document-space input exercising `c3_document_exact`
(nonzero scroll, arbitrary `dpr = 7`). -/
def c3WEnv : GuideEnv :=
  { dpr := 7, vw := 100, vh := 100, capturedSX := 0, capturedSY := 0
    winScrollX := 3, winScrollY := 4, docScrollX := 0, docScrollY := 0
    shot := none, coordSpace := "document" }

def c3WOv : OvRect := { x := 10, y := 20, width := 5, height := 6 }

theorem c3_document_exact_witness :
    (bestViewportRect c3WEnv c3WOv).l = c3WOv.x - curScrollX c3WEnv ∧
    (bestViewportRect c3WEnv c3WOv).t = c3WOv.y - curScrollY c3WEnv ∧
    (bestViewportRect c3WEnv c3WOv).w = c3WOv.width ∧
    (bestViewportRect c3WEnv c3WOv).h = c3WOv.height ∧
    ∀ d : ℚ, bestViewportRect { c3WEnv with dpr := d } c3WOv =
      bestViewportRect c3WEnv c3WOv :=
  c3_document_exact c3WEnv c3WOv rfl
    ⟨7, by norm_num [c3WOv, c3WEnv, curScrollX]⟩
    ⟨16, by norm_num [c3WOv, c3WEnv, curScrollY]⟩
    ⟨5, by norm_num, by norm_num [c3WOv]⟩
    ⟨6, by norm_num, by norm_num [c3WOv]⟩

/-! ## Claim C4: screenshot space at 2x scale -/

/-- C4: with `coord_space = "screenshot"`, screenshot pixels exactly 2x
the current viewport, zero captured and current scroll, the rectangle
`{x:200, y:100, width:100, height:40}` resolves to the viewport
rectangle `{x:100, y:50, width:50, height:20}` — every coordinate and
extent divided by the screenshot-to-viewport factor 2 (for any `dpr`,
and any viewport large enough that the clamp is not hit). -/
theorem c4_screenshot_2x (env : GuideEnv) (ov : OvRect)
    (hcs : env.coordSpace = "screenshot")
    (hshot : env.shot = some (2 * env.vw, 2 * env.vh))
    (hc1 : env.capturedSX = 0) (hc2 : env.capturedSY = 0)
    (hw1 : env.winScrollX = 0) (hw2 : env.winScrollY = 0)
    (hd1 : env.docScrollX = 0) (hd2 : env.docScrollY = 0)
    (hvw : 100 ≤ env.vw) (hvh : 50 ≤ env.vh)
    (hov : ov = { x := 200, y := 100, width := 100, height := 40 }) :
    bestViewportRect env ov = { l := 100, t := 50, w := 50, h := 20 } := by
  have hvw0 : (0 : ℚ) < env.vw := by linarith
  have hvh0 : (0 : ℚ) < env.vh := by linarith
  have hsx : scaleX env = 2 := by
    simp only [scaleX, hshot]
    rw [if_pos (by positivity : (2 : ℚ) * env.vw ≠ 0)]
    rw [mul_div_assoc, div_self (ne_of_gt hvw0), mul_one]
  have hsy : scaleY env = 2 := by
    simp only [scaleY, hshot]
    rw [if_pos (by positivity : (2 : ℚ) * env.vh ≠ 0)]
    rw [mul_div_assoc, div_self (ne_of_gt hvh0), mul_one]
  have hdx : scrollDX env = 0 := by
    unfold scrollDX curScrollX
    rw [hw1, hd1, hc1]
    simp
  have hdy : scrollDY env = 0 := by
    unfold scrollDY curScrollY
    rw [hw2, hd2, hc2]
    simp
  subst hov
  rw [bestViewportRect_screenshot env _ hcs]
  have hW : normW { x := 200, y := 100, width := 100, height := 40 } = (100 : ℚ) := by
    unfold normW
    rw [show OvRect.width { x := 200, y := 100, width := 100, height := 40 } =
      ((100 : ℤ) : ℚ) from by norm_num, jsRound_intCast]
    norm_num
  have hH : normH { x := 200, y := 100, width := 100, height := 40 } = (40 : ℚ) := by
    unfold normH
    rw [show OvRect.height { x := 200, y := 100, width := 100, height := 40 } =
      ((40 : ℤ) : ℚ) from by norm_num, jsRound_intCast]
    norm_num
  have h1 : screenshotH1 env { x := 200, y := 100, width := 100, height := 40 } =
      { l := 100, t := 50, w := 50, h := 20 } := by
    unfold screenshotH1
    rw [hsx, hsy, hdx, hdy, hc1, hc2, hW, hH]
    simp only [PickRect.mk.injEq]
    refine ⟨?_, ?_, ?_, ?_⟩
    · rw [jsRound_eval _ 100 (by norm_num) (by norm_num)]; norm_num
    · rw [jsRound_eval _ 50 (by norm_num) (by norm_num)]; norm_num
    · rw [jsRound_eval _ 50 (by norm_num) (by norm_num)]; norm_num
    · rw [jsRound_eval _ 20 (by norm_num) (by norm_num)]; norm_num
  have h2 : screenshotH2 env { x := 200, y := 100, width := 100, height := 40 } =
      { l := 100, t := 50, w := 50, h := 20 } := by
    unfold screenshotH2
    rw [hsx, hsy, hdx, hdy, hW, hH]
    simp only [PickRect.mk.injEq]
    refine ⟨?_, ?_, ?_, ?_⟩
    · rw [jsRound_eval _ 100 (by norm_num) (by norm_num)]; norm_num
    · rw [jsRound_eval _ 50 (by norm_num) (by norm_num)]; norm_num
    · rw [jsRound_eval _ 50 (by norm_num) (by norm_num)]; norm_num
    · rw [jsRound_eval _ 20 (by norm_num) (by norm_num)]; norm_num
  rw [h1, h2, if_neg (lt_irrefl _)]
  unfold clampPick
  simp only [PickRect.mk.injEq]
  refine ⟨?_, ?_, ?_, ?_⟩
  · rw [min_eq_right (by linarith), max_eq_right (by linarith)]
  · rw [min_eq_right (by linarith), max_eq_right (by linarith)]
  · rw [min_eq_right (by linarith), max_eq_right (by norm_num)]
  · rw [min_eq_right (by linarith), max_eq_right (by norm_num)]

/-- Concrete instance exercising `c4_screenshot_2x`: a 800x600 viewport
with a 1600x1200 screenshot. -/
def c4WEnv : GuideEnv :=
  { dpr := 2, vw := 800, vh := 600, capturedSX := 0, capturedSY := 0
    winScrollX := 0, winScrollY := 0, docScrollX := 0, docScrollY := 0
    shot := some (1600, 1200), coordSpace := "screenshot" }

def c4WOv : OvRect := { x := 200, y := 100, width := 100, height := 40 }

theorem c4_screenshot_2x_witness :
    bestViewportRect c4WEnv c4WOv = { l := 100, t := 50, w := 50, h := 20 } :=
  c4_screenshot_2x c4WEnv c4WOv rfl (by norm_num [c4WEnv]) rfl rfl rfl rfl rfl rfl
    (by norm_num [c4WEnv]) (by norm_num [c4WEnv]) rfl

/-! ## Claim C5: unknown coordinate space, multi-hypothesis search -/

/-- Concrete input for refuting the "all candidates score zero ⇒ no
overlay is rendered" part of C5: an `unknown`-space rectangle entirely
outside the 100x100 viewport.  All four candidate interpretations score
zero, the document interpretation is returned, and the render guard
(`w < 2 || h < 2`) does not skip it. -/
def c5Env : GuideEnv :=
  { dpr := 1, vw := 100, vh := 100, capturedSX := 0, capturedSY := 0
    winScrollX := 0, winScrollY := 0, docScrollX := 0, docScrollY := 0
    shot := none, coordSpace := "unknown" }

def c5Ov : OvRect := { x := 1000, y := 1000, width := 10, height := 10 }

/-- The common value of all four fallback candidates for `c5Ov`. -/
def c5Pick : PickRect := { l := 1000, t := 1000, w := 10, h := 10 }

theorem c5_cands_eval : fallbackCands c5Env c5Ov = [c5Pick, c5Pick, c5Pick, c5Pick] := by
  have e1 : jsRound ((1000 : ℚ)) = 1000 := jsRound_eval _ 1000 (by norm_num) (by norm_num)
  have e2 : jsRound ((10 : ℚ)) = 10 := jsRound_eval _ 10 (by norm_num) (by norm_num)
  simp only [fallbackCands, fbCand0, fbCand1, fbCand2, fbCand3, c5Env, c5Ov, c5Pick,
    curScrollX, curScrollY, normW, normH]
  norm_num [e1, e2, max_def]

theorem c5_pick_score_zero : pickScore c5Env c5Pick = 0 := by
  unfold pickScore intersectionScore
  norm_num [c5Env, c5Pick]

/-- C5 counterexample: every one of the four `unknown`-space candidate
interpretations of `c5Ov` scores zero, yet the step is not skipped: the
initial render still creates a highlight and label for it (the guard
only skips rectangles thinner than 2 px). -/
theorem c5_counterexample :
    (∀ c ∈ fallbackCands c5Env c5Ov, pickScore c5Env c = 0) ∧
    renderedAtInit c5Env c5Ov = true := by
  have hcands := c5_cands_eval
  simp only [fallbackCands, List.cons.injEq, and_true] at hcands
  obtain ⟨h0, h1, h2, h3⟩ := hcands
  have hall : ∀ c ∈ fallbackCands c5Env c5Ov, pickScore c5Env c = 0 := by
    intro c hc
    simp only [fallbackCands, List.mem_cons, List.not_mem_nil, or_false] at hc
    rcases hc with h | h | h | h <;> rw [h] <;>
      simp only [h0, h1, h2, h3] <;> exact c5_pick_score_zero
  refine ⟨hall, ?_⟩
  have hbv : bestViewportRect c5Env c5Ov = c5Pick := by
    rw [bestViewportRect_fallback c5Env c5Ov (by decide) (by decide) (by decide)]
    rw [h0, h1, h2, h3]
    exact bestFallback_allzero c5Env [c5Pick, c5Pick, c5Pick] c5Pick c5_pick_score_zero
      (by intro c hc
          simp only [List.mem_cons, List.not_mem_nil, or_false] at hc
          rcases hc with h | h | h <;> rw [h] <;> exact c5_pick_score_zero)
  unfold renderedAtInit
  rw [hbv]
  norm_num [c5Pick]

/-- C5 (amended): for an unknown coordinate space, the four candidate
interpretations (document, viewport, each with and without
device-pixel-ratio division) are scored by viewport intersection and
the highest-scoring candidate wins (earlier candidates win ties); when
every candidate scores zero the first (document-interpretation)
candidate is returned rather than the step being marked unresolved, and
at render time a step is skipped exactly when its resolved width or
height is below 2 px — so an all-zero-score step that is merely
off-viewport or oversized is still rendered. -/
theorem c5_unknown_multihypothesis (env : GuideEnv) (ov : OvRect)
    (hcs : env.coordSpace = "unknown") :
    bestViewportRect env ov ∈ fallbackCands env ov ∧
    (∀ c ∈ fallbackCands env ov, pickScore env c ≤ pickScore env (bestViewportRect env ov)) ∧
    ((∀ c ∈ fallbackCands env ov, pickScore env c = 0) →
      bestViewportRect env ov =
        { l := jsRound (ov.x - curScrollX env), t := jsRound (ov.y - curScrollY env)
          w := normW ov, h := normH ov }) ∧
    (renderedAtInit env ov = true ↔
      ¬ ((bestViewportRect env ov).w < 2 ∨ (bestViewportRect env ov).h < 2)) := by
  have hb := bestViewportRect_fallback env ov (by rw [hcs]; decide) (by rw [hcs]; decide)
    (by rw [hcs]; decide)
  have hfc : fallbackCands env ov =
      fbCand0 env ov :: [fbCand1 env ov, fbCand2 env ov, fbCand3 env ov] := rfl
  refine ⟨?_, ?_, ?_, ?_⟩
  · rw [hb, hfc]
    rcases bestFallback_mem env [fbCand1 env ov, fbCand2 env ov, fbCand3 env ov]
      (fbCand0 env ov) (pickScore env (fbCand0 env ov)) with h | h
    · rw [h]
      exact List.mem_cons_self _ _
    · exact List.mem_cons_of_mem _ h
  · intro c hc
    rw [hb]
    rw [hfc] at hc
    exact bestFallback_score_ge env [fbCand1 env ov, fbCand2 env ov, fbCand3 env ov]
      (fbCand0 env ov) c hc
  · intro hz
    rw [hb]
    rw [bestFallback_allzero env [fbCand1 env ov, fbCand2 env ov, fbCand3 env ov]
      (fbCand0 env ov) (hz _ (by rw [hfc]; exact List.mem_cons_self _ _))
      (fun c hc => hz c (by rw [hfc]; exact List.mem_cons_of_mem _ hc))]
    rfl
  · unfold renderedAtInit
    simp only [Bool.not_eq_true', decide_eq_false_iff_not]

theorem c5_unknown_multihypothesis_witness :
    bestViewportRect c5Env c5Ov ∈ fallbackCands c5Env c5Ov ∧
    (∀ c ∈ fallbackCands c5Env c5Ov,
      pickScore c5Env c ≤ pickScore c5Env (bestViewportRect c5Env c5Ov)) ∧
    ((∀ c ∈ fallbackCands c5Env c5Ov, pickScore c5Env c = 0) →
      bestViewportRect c5Env c5Ov =
        { l := jsRound (c5Ov.x - curScrollX c5Env), t := jsRound (c5Ov.y - curScrollY c5Env)
          w := normW c5Ov, h := normH c5Ov }) ∧
    (renderedAtInit c5Env c5Ov = true ↔
      ¬ ((bestViewportRect c5Env c5Ov).w < 2 ∨ (bestViewportRect c5Env c5Ov).h < 2)) :=
  c5_unknown_multihypothesis c5Env c5Ov rfl

/-! ## Claim C9: first-trusted-click step completion (content script `renderAll`)

`renderAll` registers
`document.addEventListener('click', clickHandler, { capture: true, once: true })`.
With `once: true` the listener is removed as soon as it is invoked — for
*any* click, before the handler body decides whether the click is
trusted.  The body ignores untrusted (`!ev.isTrusted`) and
default-prevented events, and otherwise sends `guideStepCompleted` and
schedules `removeGuides`. -/

/-- A click event as observed by the capture-phase document listener. -/
structure ClickEv where
  isTrusted : Bool
  defaultPrevented : Bool
  deriving Repr, DecidableEq

/-- Tracking-phase state: whether the once-registered click listener is
still installed, whether `guideStepCompleted` has been sent to the
panel, and whether the overlays are still visible. -/
structure TrackState where
  handlerInstalled : Bool
  completedSignaled : Bool
  overlaysVisible : Bool
  deriving Repr, DecidableEq

/-- State right after `renderAll` attached the click listener. -/
def initTracking : TrackState :=
  { handlerInstalled := true, completedSignaled := false, overlaysVisible := true }

/-- Dispatch of one document click.  `{ once: true }` uninstalls the
listener upon invocation; the body then ignores synthetic or
default-prevented clicks, otherwise signals completion and removes the
guides. -/
def dispatchClick (st : TrackState) (ev : ClickEv) : TrackState :=
  if st.handlerInstalled then
    let st1 := { st with handlerInstalled := false }
    if !ev.isTrusted then st1
    else if ev.defaultPrevented then st1
    else { st1 with completedSignaled := true, overlaysVisible := false }
  else st

/-- A sequence of clicks during one tracking phase. -/
def runClicks (st : TrackState) (evs : List ClickEv) : TrackState :=
  evs.foldl dispatchClick st

/-- The panel-side `guideStepCompleted` listener reaction
(`src/unnamed/part_001` lines 822-828): the continue prompt is shown
when a guide session is active and the message carries no (or an empty)
session id or the matching one. -/
def panelReacts (currentSession : Option String) (msgSession : Option String) : Bool :=
  match currentSession with
  | none => false
  | some id =>
      match msgSession with
      | none => true
      | some s => s = id

/-- C9: a single trusted first click does signal completion and dismiss
the overlays (first conjunct pair), but — because the listener is
registered with `once: true` — a synthetic click consumes and removes
the listener, so a subsequent trusted click during the same tracking
phase signals nothing and the overlays stay up, contradicting the
claim. -/
theorem c9_synthetic_click_consumes_listener :
    (runClicks initTracking [{ isTrusted := true, defaultPrevented := false }]).completedSignaled
        = true ∧
    (runClicks initTracking [{ isTrusted := true, defaultPrevented := false }]).overlaysVisible
        = false ∧
    (runClicks initTracking
      [{ isTrusted := false, defaultPrevented := false },
       { isTrusted := true, defaultPrevented := false }]).completedSignaled = false ∧
    (runClicks initTracking
      [{ isTrusted := false, defaultPrevented := false },
       { isTrusted := true, defaultPrevented := false }]).overlaysVisible = true := by
  decide

/-! ## Claim C10: panel-side overlay deduplication (`src/unnamed/part_001`)

`handleSend` deduplicates `overlaysToRender` by the string key
`round(x)|round(y)|round(width)|round(height)|label` before sending them
to the content script. -/

/-- One overlay as assembled by the panel before rendering. -/
structure PanelOverlay where
  x : ℚ
  y : ℚ
  width : ℚ
  height : ℚ
  label : String
  deriving Repr, DecidableEq

/-- The dedup key built in `handleSend`:
`` `${Math.round(ov.x)}|${Math.round(ov.y)}|${Math.round(ov.width)}|${Math.round(ov.height)}|${ov.label||''}` ``. -/
def overlayKey (ov : PanelOverlay) : String :=
  toString (jsRound ov.x) ++ "|" ++ toString (jsRound ov.y) ++ "|" ++
    toString (jsRound ov.width) ++ "|" ++ toString (jsRound ov.height) ++ "|" ++ ov.label

/-- The dedup loop: a `seenKeys` set is consulted before each push. -/
def uniqueOverlays (seen : List String) : List PanelOverlay → List PanelOverlay
  | [] => []
  | ov :: rest =>
      if overlayKey ov ∈ seen then uniqueOverlays seen rest
      else ov :: uniqueOverlays (overlayKey ov :: seen) rest

theorem uniqueOverlays_key_not_mem_seen :
    ∀ (l : List PanelOverlay) (seen : List String),
      ∀ ov ∈ uniqueOverlays seen l, overlayKey ov ∉ seen := by
  intro l
  induction l with
  | nil => intro seen ov hov; cases hov
  | cons o rest ih =>
      intro seen ov hov
      unfold uniqueOverlays at hov
      by_cases hk : overlayKey o ∈ seen
      · rw [if_pos hk] at hov
        exact ih seen ov hov
      · rw [if_neg hk] at hov
        rcases List.mem_cons.mp hov with h | h
        · rw [h]; exact hk
        · intro hs
          exact ih _ ov h (List.mem_cons_of_mem _ hs)

theorem uniqueOverlays_pairwise :
    ∀ (l : List PanelOverlay) (seen : List String),
      (uniqueOverlays seen l).Pairwise (fun a b => overlayKey a ≠ overlayKey b) := by
  intro l
  induction l with
  | nil => intro seen; exact List.Pairwise.nil
  | cons o rest ih =>
      intro seen
      unfold uniqueOverlays
      by_cases hk : overlayKey o ∈ seen
      · rw [if_pos hk]; exact ih seen
      · rw [if_neg hk]
        refine List.Pairwise.cons ?_ (ih _)
        intro b hb heq
        have := uniqueOverlays_key_not_mem_seen rest (overlayKey o :: seen) b hb
        exact this (by rw [← heq]; exact List.mem_cons_self _ _)

theorem uniqueOverlays_sublist :
    ∀ (l : List PanelOverlay) (seen : List String),
      (uniqueOverlays seen l).Sublist l := by
  intro l
  induction l with
  | nil => intro seen; exact List.Sublist.refl []
  | cons o rest ih =>
      intro seen
      unfold uniqueOverlays
      by_cases hk : overlayKey o ∈ seen
      · rw [if_pos hk]; exact (ih seen).cons o
      · rw [if_neg hk]; exact (ih _).cons₂ o

theorem uniqueOverlays_filter_mem :
    ∀ (l : List PanelOverlay) (seen : List String) (k : String), k ∈ seen →
      (uniqueOverlays seen l).filter (fun ov => overlayKey ov == k) = [] := by
  intro l
  induction l with
  | nil => intro seen k _; rfl
  | cons o rest ih =>
      intro seen k hks
      unfold uniqueOverlays
      by_cases hk : overlayKey o ∈ seen
      · rw [if_pos hk]; exact ih seen k hks
      · rw [if_neg hk]
        have hne : (overlayKey o == k) = false := by
          simp only [beq_eq_false_iff_ne, ne_eq]
          intro h; exact hk (h ▸ hks)
        simp only [List.filter_cons, hne]
        exact ih _ k (List.mem_cons_of_mem _ hks)

theorem uniqueOverlays_filter_not_mem :
    ∀ (l : List PanelOverlay) (seen : List String) (k : String), k ∉ seen →
      (uniqueOverlays seen l).filter (fun ov => overlayKey ov == k) =
        (l.filter (fun ov => overlayKey ov == k)).take 1 := by
  intro l
  induction l with
  | nil => intro seen k _; rfl
  | cons o rest ih =>
      intro seen k hks
      unfold uniqueOverlays
      by_cases hk : overlayKey o ∈ seen
      · rw [if_pos hk]
        have hne : (overlayKey o == k) = false := by
          simp only [beq_eq_false_iff_ne, ne_eq]
          intro h; exact hks (h ▸ hk)
        simp only [List.filter_cons, hne]
        exact ih seen k hks
      · rw [if_neg hk]
        by_cases hek : overlayKey o = k
        · have hbt : (overlayKey o == k) = true := by simp [hek]
          simp only [List.filter_cons, hbt]
          rw [uniqueOverlays_filter_mem rest _ k (by rw [← hek]; exact List.mem_cons_self _ _)]
          simp [List.take]
        · have hne : (overlayKey o == k) = false := by simp [hek]
          simp only [List.filter_cons, hne]
          exact ih _ k (by
            intro hks2
            rcases List.mem_cons.mp hks2 with h | h
            · exact hek h.symm
            · exact hks h)

/-- C10: the panel deduplicates overlays by rounded geometry plus label
before rendering: in the final list no two entries share the dedup key,
the survivors appear in their original relative order (sublist), and for
every key exactly the first overlay carrying it survives. -/
theorem c10_unique_overlays (l : List PanelOverlay) :
    (uniqueOverlays [] l).Pairwise (fun a b => overlayKey a ≠ overlayKey b) ∧
    (uniqueOverlays [] l).Sublist l ∧
    (∀ k : String, (uniqueOverlays [] l).filter (fun ov => overlayKey ov == k) =
      (l.filter (fun ov => overlayKey ov == k)).take 1) :=
  ⟨uniqueOverlays_pairwise l [], uniqueOverlays_sublist l [],
    fun k => uniqueOverlays_filter_not_mem l [] k (List.not_mem_nil k)⟩

/-! ## Server-side data model (`server.js`, `app.post("/chat")`)

The `/chat` handler receives an untrusted JSON payload (`payload`) and
the model's parsed response (`parsed`).  Overlay entries that reach the
repair passes have been normalised (server.js lines 467-476) through
`Number(...)`, so every numeric field holds a JavaScript number — which
may be `NaN` when the model sent junk.  `JSNum` models that domain. -/

/-- A JavaScript number: either `NaN` or a (rational) numeric value. -/
inductive JSNum where
  | nan : JSNum
  | val (q : ℚ) : JSNum
  deriving Repr, DecidableEq

/-- JavaScript `a > b` on numbers: `false` when either side is `NaN`. -/
def jsGT : JSNum → JSNum → Bool
  | .val a, .val b => decide (a > b)
  | _, _ => false

/-- JavaScript `a < b` on numbers: `false` when either side is `NaN`. -/
def jsLT : JSNum → JSNum → Bool
  | .val a, .val b => decide (a < b)
  | _, _ => false

/-- `Number(v || 0)` applied to an already-numeric value: `NaN` is falsy
and collapses to `0`. -/
def jsNumOr0 : JSNum → ℚ
  | .nan => 0
  | .val q => q

/-- `Number.isInteger(v)`. -/
def jsIsInteger : JSNum → Bool
  | .nan => false
  | .val q => decide (q.den = 1)

/-- The integer value of an integral `JSNum` (0 for `NaN`; only used
after an `Number.isInteger` guard). -/
def JSNum.toIntD : JSNum → ℤ
  | .nan => 0
  | .val q => q.num

/-- An element rectangle as found in the client payload; each field may
be missing (`undefined`).  The collector (`findElements`) emits
`x/y/width/height`; `getElementInfo` emits `left/top/width/height` — the
server reads `left ?? x ?? 0` and friends. -/
structure SRect where
  left : Option ℚ
  top : Option ℚ
  x : Option ℚ
  y : Option ℚ
  width : Option ℚ
  height : Option ℚ
  deriving Repr, DecidableEq

/-- `{}` — the rectangle with every field missing. -/
def emptyRect : SRect :=
  { left := none, top := none, x := none, y := none, width := none, height := none }

/-- A payload element (`payload.elements[j]`) as read by the repair
passes and the matcher: text/role/tag strings, the collector's boolean
flags, the computed-style background string, and the stored
rectangle. -/
structure SElem where
  text : String
  role : String
  tag : String
  is_button : Bool
  visible : Option Bool
  in_nav : Bool
  in_header : Bool
  styleBg : String
  rect : Option SRect
  deriving Repr, DecidableEq

/-- `el.rect || {}`. -/
def rectOf (el : Option SElem) : SRect :=
  match el with
  | some e => e.rect.getD emptyRect
  | none => emptyRect

/-- `elList[n] || {}` for a (possibly negative) numeric index. -/
def elemAt (els : List SElem) (n : ℤ) : Option SElem :=
  if n < 0 then none else els.get? n.toNat

/-- `payload.page_viewport_rect` (built by the panel as
`{x:0, y:0, width:Number(...), height:Number(...)}`). -/
structure VpRect where
  x : ℚ
  y : ℚ
  width : ℚ
  height : ℚ
  deriving Repr, DecidableEq

/-- The payload fields consumed by the repair passes and the matcher:
the element list, the viewport rectangle, the `|| 0`-resolved scroll
offsets, the main-content left edge
(`payload.page_state?.layout?.content_left` when it is a number), and
the trimmed user message. -/
structure ChatPayload where
  elements : List SElem
  page_viewport_rect : Option VpRect
  scrollX : ℚ
  scrollY : ℚ
  contentLeft : Option ℚ
  trimmedMessage : String
  deriving Repr, DecidableEq

/-- One entry of the model's `steps` array: either a plain string or an
object whose `instruction`/`title`/`description`/`step` fields may each
be missing. -/
inductive JStep where
  | str (s : String) : JStep
  | obj (instruction title description step : Option String) : JStep
  deriving Repr, DecidableEq

/-- JavaScript `a || b || ... || ""` over optional strings (the empty
string is falsy). -/
def firstTruthyStr : List (Option String) → String
  | [] => ""
  | none :: rest => firstTruthyStr rest
  | some s :: rest => if s = "" then firstTruthyStr rest else s

/-- The label used by reconciler pass 1 (server.js lines 494-496):
`typeof steps?.[i] === 'string' ? steps[i] :
(steps?.[i]?.instruction || … || steps?.[i]?.step || "")`. -/
def stepLabelP1 (steps : Option (List JStep)) (i : ℕ) : String :=
  match steps with
  | none => ""
  | some l =>
      match l.get? i with
      | none => ""
      | some (.str s) => s
      | some (.obj ins t d st) => firstTruthyStr [ins, t, d, st]

/-- A model overlay after the normalisation at server.js lines 467-476:
every numeric field is a JavaScript number (possibly `NaN`). -/
structure NOverlay where
  x : JSNum
  y : JSNum
  width : JSNum
  height : JSNum
  label : String
  step_index : Option ℤ
  deriving Repr, DecidableEq

/-- `Array.isArray(parsed.overlays) ? parsed.overlays[i] : null`. -/
def overlayAt (ovs : Option (List NOverlay)) (i : ℕ) : Option NOverlay :=
  match ovs with
  | none => none
  | some l => l.get? i

/-! ## Claim C8: reconciler pass 1 (`keepModel`, server.js lines 487-527) -/

/-- The `keepModel` reasonableness test for a present model overlay
(whose `width`/`height` pass the `typeof === 'number'` check, which
every normalised overlay does — `NaN` included):

* `tooWide`/`tooTall`: only checked when a viewport with a truthy
  width/height is known; `NaN > x` is false, so `NaN` extents are never
  "too wide";
* `nearTop`: the overlay's `y` lies above `scroll.y + 80`. -/
def keepModelCheck (p : ChatPayload) (m : NOverlay) : Bool :=
  let tooWide :=
    match p.page_viewport_rect with
    | some vp => if vp.width ≠ 0 then jsGT m.width (JSNum.val (vp.width * (8/10))) else false
    | none => false
  let tooTall :=
    match p.page_viewport_rect with
    | some vp => if vp.height ≠ 0 then jsGT m.height (JSNum.val (vp.height * (8/10))) else false
    | none => false
  let nearTop := jsLT m.y (JSNum.val (p.scrollY + 80))
  !(tooWide || tooTall || nearTop)

/-- One overlay produced by the repair passes. -/
structure OvOut where
  x : ℚ
  y : ℚ
  width : ℚ
  height : ℚ
  label : String
  step_index : ℕ
  deriving Repr, DecidableEq

/-- The kept model rectangle: each field passes through
`Number(v || 0)`, so falsy (`0`/`NaN`) values become `0`. -/
def rebuiltFromModel (m : NOverlay) (label : String) (i : ℕ) : OvOut :=
  { x := jsNumOr0 m.x, y := jsNumOr0 m.y, width := jsNumOr0 m.width
    height := jsNumOr0 m.height, label := label, step_index := i }

/-- The rectangle rebuilt from the referenced element's stored rect
(`r.left ?? r.x ?? 0` etc.). -/
def rebuiltFromElement (els : List SElem) (n : ℤ) (label : String) (i : ℕ) : OvOut :=
  let r := rectOf (elemAt els n)
  { x := (r.left <|> r.x).getD 0, y := (r.top <|> r.y).getD 0
    width := r.width.getD 0, height := r.height.getD 0, label := label, step_index := i }

/-- The body of one pass-1 loop iteration for step `i` with target entry
`idx`: skipped (`none`) for non-integer entries, otherwise the model
rectangle when `keepModel` holds, else the element rectangle. -/
def pass1Entry (p : ChatPayload) (steps : Option (List JStep))
    (overlays : Option (List NOverlay)) (i : ℕ) (idx : JSNum) : Option OvOut :=
  if jsIsInteger idx then
    match overlayAt overlays i with
    | some m =>
        if keepModelCheck p m then some (rebuiltFromModel m (stepLabelP1 steps i) i)
        else some (rebuiltFromElement p.elements idx.toIntD (stepLabelP1 steps i) i)
    | none => some (rebuiltFromElement p.elements idx.toIntD (stepLabelP1 steps i) i)
  else none

/-- `rebuilt[i] = v` on a JavaScript array: assigns in place, extending
the array with holes (which behave as `null`/`undefined` in all later
reads) when `i` is beyond the current length. -/
def setExtend (acc : List (Option OvOut)) (i : ℕ) (v : OvOut) : List (Option OvOut) :=
  (acc ++ List.replicate (i + 1 - acc.length) none).set i (some v)

/-- The pass-1 loop over `parsed.target_indexes`. -/
def pass1Loop (p : ChatPayload) (steps : Option (List JStep))
    (overlays : Option (List NOverlay)) :
    ℕ → List JSNum → List (Option OvOut) → List (Option OvOut)
  | _, [], acc => acc
  | i, idx :: rest, acc =>
      match pass1Entry p steps overlays i idx with
      | none => pass1Loop p steps overlays (i + 1) rest acc
      | some v => pass1Loop p steps overlays (i + 1) rest (setExtend acc i v)

/-- `rebuilt`: a `stepLen`-long null array filled by the loop
(`stepLen = steps.length` when steps is an array, else
`target_indexes.length`). -/
def pass1Rebuilt (p : ChatPayload) (steps : Option (List JStep))
    (targets : List JSNum) (overlays : Option (List NOverlay)) : List (Option OvOut) :=
  let stepLen := match steps with
    | some s => s.length
    | none => targets.length
  pass1Loop p steps overlays 0 targets (List.replicate stepLen none)

/-- `if (rebuilt.some(Boolean)) parsed.overlays = rebuilt.map(o => o || null)`:
the model's overlay array is replaced only when at least one entry was
rebuilt (`none` = left unchanged). -/
def pass1NewOverlays (p : ChatPayload) (steps : Option (List JStep))
    (targets : List JSNum) (overlays : Option (List NOverlay)) :
    Option (List (Option OvOut)) :=
  let rebuilt := pass1Rebuilt p steps targets overlays
  if rebuilt.any Option.isSome then some rebuilt else none

theorem setExtend_length (acc : List (Option OvOut)) (i : ℕ) (v : OvOut) :
    i < (setExtend acc i v).length := by
  unfold setExtend
  simp only [List.length_set, List.length_append, List.length_replicate]
  omega

theorem setExtend_getD_self (acc : List (Option OvOut)) (i : ℕ) (v : OvOut) :
    (setExtend acc i v).getD i none = some v := by
  rw [List.getD_eq_getElem _ _ (setExtend_length acc i v)]
  unfold setExtend
  simp [List.getElem_set]

theorem setExtend_getD_ne (acc : List (Option OvOut)) (i m : ℕ) (v : OvOut)
    (h : m ≠ i) : (setExtend acc i v).getD m none = acc.getD m none := by
  unfold setExtend
  by_cases hm : m < (acc ++ List.replicate (i + 1 - acc.length) (none : Option OvOut)).length
  · rw [List.getD_eq_getElem _ _ (by simpa using hm)]
    rw [List.getElem_set]
    rw [if_neg (fun hh => h hh.symm)]
    by_cases hacc : m < acc.length
    · rw [List.getElem_append_left hacc, List.getD_eq_getElem _ _ hacc]
    · rw [List.getD_eq_default _ _ (by omega)]
      rw [List.getElem_append_right (by omega)]
      simp [List.getElem_replicate]
  · rw [List.getD_eq_default _ _ (by simpa using Nat.le_of_not_lt hm)]
    rw [List.getD_eq_default]
    simp only [List.length_append, List.length_replicate] at hm
    omega

theorem pass1Loop_getD_lt (p : ChatPayload) (steps : Option (List JStep))
    (overlays : Option (List NOverlay)) :
    ∀ (rest : List JSNum) (k m : ℕ) (acc : List (Option OvOut)), m < k →
      (pass1Loop p steps overlays k rest acc).getD m none = acc.getD m none := by
  intro rest
  induction rest with
  | nil => intro k m acc _; rfl
  | cons idx rest ih =>
      intro k m acc hmk
      unfold pass1Loop
      cases hE : pass1Entry p steps overlays k idx with
      | none => exact ih (k + 1) m acc (by omega)
      | some v =>
          rw [ih (k + 1) m _ (by omega)]
          exact setExtend_getD_ne acc k m v (by omega)

theorem pass1Loop_getD_at (p : ChatPayload) (steps : Option (List JStep))
    (overlays : Option (List NOverlay)) :
    ∀ (rest : List JSNum) (k j : ℕ) (acc : List (Option OvOut)), j < rest.length →
      (pass1Loop p steps overlays k rest acc).getD (k + j) none =
        match pass1Entry p steps overlays (k + j) (rest.getD j JSNum.nan) with
        | some v => some v
        | none => acc.getD (k + j) none := by
  intro rest
  induction rest with
  | nil => intro k j acc hj; cases hj
  | cons idx rest ih =>
      intro k j acc hj
      cases j with
      | zero =>
          simp only [Nat.add_zero, List.getD_cons_zero]
          unfold pass1Loop
          cases hE : pass1Entry p steps overlays k idx with
          | none =>
              rw [pass1Loop_getD_lt p steps overlays rest (k + 1) k acc (by omega)]
          | some v =>
              rw [pass1Loop_getD_lt p steps overlays rest (k + 1) k _ (by omega)]
              exact setExtend_getD_self acc k v
      | succ j' =>
          have hj' : j' < rest.length := by simpa using hj
          have harith : k + (j' + 1) = (k + 1) + j' := by omega
          simp only [List.getD_cons_succ, harith]
          unfold pass1Loop
          cases hE : pass1Entry p steps overlays k idx with
          | none => exact ih (k + 1) j' acc hj'
          | some v =>
              rw [ih (k + 1) j' _ hj']
              cases pass1Entry p steps overlays (k + 1 + j') (rest.getD j' JSNum.nan) with
              | some w => rfl
              | none => exact setExtend_getD_ne acc k (k + 1 + j') v (by omega)

theorem pass1Rebuilt_getD (p : ChatPayload) (steps : Option (List JStep))
    (targets : List JSNum) (overlays : Option (List NOverlay)) (i : ℕ)
    (hi : i < targets.length) :
    (pass1Rebuilt p steps targets overlays).getD i none =
      match pass1Entry p steps overlays i (targets.getD i JSNum.nan) with
      | some v => some v
      | none =>
          (List.replicate (match steps with
            | some s => s.length
            | none => targets.length) (none : Option OvOut)).getD i none := by
  unfold pass1Rebuilt
  have := pass1Loop_getD_at p steps overlays targets 0 i
    (List.replicate (match steps with
      | some s => s.length
      | none => targets.length) (none : Option OvOut)) hi
  simpa using this

theorem getD_some_mem (l : List (Option OvOut)) (i : ℕ) (v : OvOut)
    (h : l.getD i none = some v) : some v ∈ l := by
  by_cases hi : i < l.length
  · rw [List.getD_eq_getElem _ _ hi] at h
    rw [← h]
    exact List.getElem_mem hi
  · rw [List.getD_eq_default _ _ (Nat.le_of_not_lt hi)] at h
    cases h

/-- C8 (amended): in reconciler pass 1, for every step `i` whose target
entry is an integer, the rebuilt overlay at `i` is the model's own
rectangle (with falsy `NaN`/`0` coordinates coerced to 0) exactly when a
model overlay exists at `i` and `keepModelCheck` holds — the overlay is
a JavaScript number pair not exceeding 80% of a known viewport dimension
(a `NaN` extent passes this check, since `NaN > x` is false) and not
anchored above `scroll.y + 80` — and the element's stored rectangle
otherwise; whenever any entry is rebuilt the model's overlay array is
replaced by the rebuilt list. -/
theorem c8_pass1_keep_model (p : ChatPayload) (steps : Option (List JStep))
    (targets : List JSNum) (overlays : Option (List NOverlay)) (i : ℕ)
    (hi : i < targets.length)
    (hint : jsIsInteger (targets.getD i JSNum.nan) = true) :
    (∀ m, overlayAt overlays i = some m → keepModelCheck p m = true →
      (pass1Rebuilt p steps targets overlays).getD i none =
        some (rebuiltFromModel m (stepLabelP1 steps i) i)) ∧
    (∀ m, overlayAt overlays i = some m → keepModelCheck p m = false →
      (pass1Rebuilt p steps targets overlays).getD i none =
        some (rebuiltFromElement p.elements (targets.getD i JSNum.nan).toIntD
          (stepLabelP1 steps i) i)) ∧
    (overlayAt overlays i = none →
      (pass1Rebuilt p steps targets overlays).getD i none =
        some (rebuiltFromElement p.elements (targets.getD i JSNum.nan).toIntD
          (stepLabelP1 steps i) i)) ∧
    (∀ v, (pass1Rebuilt p steps targets overlays).getD i none = some v →
      pass1NewOverlays p steps targets overlays =
        some (pass1Rebuilt p steps targets overlays)) := by
  refine ⟨?_, ?_, ?_, ?_⟩
  · intro m hm hkeep
    rw [pass1Rebuilt_getD p steps targets overlays i hi]
    unfold pass1Entry
    rw [if_pos hint]
    simp [hm, hkeep]
  · intro m hm hkeep
    rw [pass1Rebuilt_getD p steps targets overlays i hi]
    unfold pass1Entry
    rw [if_pos hint]
    simp [hm, hkeep]
  · intro hm
    rw [pass1Rebuilt_getD p steps targets overlays i hi]
    unfold pass1Entry
    rw [if_pos hint]
    simp [hm]
  · intro v hv
    unfold pass1NewOverlays
    rw [if_pos]
    rw [List.any_eq_true]
    exact ⟨some v, getD_some_mem _ i v hv, rfl⟩

/-! Counterexample input for C8: one element whose stored rectangle is
`(10, 500, 200, 30)`, one integral target index, and a model overlay
with a `NaN` width. -/

def c8El : SElem :=
  { text := "start", role := "", tag := "button", is_button := true
    visible := some true, in_nav := false, in_header := false, styleBg := ""
    rect := some { left := none, top := none, x := some 10, y := some 500
                   width := some 200, height := some 30 } }

def c8P : ChatPayload :=
  { elements := [c8El], page_viewport_rect := some ⟨0, 0, 800, 600⟩
    scrollX := 0, scrollY := 0, contentLeft := none, trimmedMessage := "" }

def c8Ov : NOverlay :=
  { x := .val 5, y := .val 1000, width := .nan, height := .val 30
    label := "", step_index := none }

def c8Steps : List JStep := [.str "step"]

def c8Targets : List JSNum := [.val 0]

/-- C8 counterexample: the model overlay has `width = NaN` — not a
finite number — yet the pass keeps the model rectangle (with the falsy
width coerced to 0) instead of rebuilding from the element's stored
rectangle as the claim requires, because `typeof NaN === 'number'` and
`NaN > vp.width * 0.8` is false. -/
theorem c8_counterexample :
    (pass1Rebuilt c8P (some c8Steps) c8Targets (some [c8Ov])).getD 0 none =
      some { x := 5, y := 1000, width := 0, height := 30, label := "step", step_index := 0 } ∧
    ({ x := 5, y := 1000, width := 0, height := 30, label := "step", step_index := 0 } : OvOut) ≠
      rebuiltFromElement c8P.elements 0 "step" 0 := by
  have hkeep : keepModelCheck c8P c8Ov = true := by
    unfold keepModelCheck c8P c8Ov
    simp only [jsGT, jsLT]
    norm_num
  have hentry : pass1Entry c8P (some c8Steps) (some [c8Ov]) 0 (JSNum.val 0) =
      some { x := 5, y := 1000, width := 0, height := 30, label := "step", step_index := 0 } := by
    unfold pass1Entry
    rw [if_pos (by simp [jsIsInteger])]
    rw [show overlayAt (some [c8Ov]) 0 = some c8Ov from rfl]
    simp only [hkeep, if_true]
    rfl
  have helem : rebuiltFromElement c8P.elements 0 "step" 0 =
      { x := 10, y := 500, width := 200, height := 30, label := "step", step_index := 0 } := rfl
  constructor
  · rw [pass1Rebuilt_getD c8P (some c8Steps) c8Targets (some [c8Ov]) 0 (by simp [c8Targets])]
    rw [show c8Targets.getD 0 JSNum.nan = JSNum.val 0 from rfl, hentry]
  · rw [helem]
    intro h
    have hx := congrArg OvOut.x h
    norm_num at hx

/-- A model overlay that passes `keepModelCheck` against `c8P`. -/
def c8WOv : NOverlay :=
  { x := .val 100, y := .val 500, width := .val 50, height := .val 20
    label := "", step_index := none }

theorem c8_pass1_keep_model_witness :
    (pass1Rebuilt c8P (some c8Steps) c8Targets (some [c8WOv])).getD 0 none =
      some (rebuiltFromModel c8WOv (stepLabelP1 (some c8Steps) 0) 0) ∧
    pass1NewOverlays c8P (some c8Steps) c8Targets (some [c8WOv]) =
      some (pass1Rebuilt c8P (some c8Steps) c8Targets (some [c8WOv])) := by
  have h := c8_pass1_keep_model c8P (some c8Steps) c8Targets (some [c8WOv]) 0
    (by simp [c8Targets]) (by simp [c8Targets, jsIsInteger])
  have hkeep : keepModelCheck c8P c8WOv = true := by
    unfold keepModelCheck c8P c8WOv
    simp only [jsGT, jsLT]
    norm_num
  have h1 := h.1 c8WOv rfl hkeep
  exact ⟨h1, h.2.2.2 _ h1⟩

/-! ## Claim C1: the suspicion-correction pass (server.js lines 702-812)

The pass is wrapped in `try { … } catch { … }`.  Its helper
`suspicious(i)` reads the identifier `vp` — but no `vp` is declared in
any scope enclosing the correction pass: the two `const vp` bindings at
server.js lines 305 and 547 are block-scoped elsewhere, and no global
`vp` exists.  Hence every invocation of `suspicious` throws a
`ReferenceError`, which the `catch` swallows, leaving `parsed`
untouched.  When there are no steps at all, the pass instead throws its
own deliberate `skip-correction` error.  Either way nothing is ever
corrected. -/

/-- The parsed model response as seen by the repair passes. -/
structure ParsedGuide where
  steps : Option (List JStep)
  overlays : Option (List NOverlay)
  target_indexes : Option (List JSNum)
  coord_space : Option String
  deriving Repr, DecidableEq

/-- `typeof parsed.coord_space === 'string' ? parsed.coord_space.toLowerCase() : null`
(ASCII case mapping; the relevant value is `"screenshot"`). -/
def coordSpaceLower (parsed : ParsedGuide) : Option String :=
  parsed.coord_space.map String.toLower

/-- The two ways the correction pass body can abort. -/
inductive CorrErr where
  | vpNotDefined : CorrErr
  | skipCorrection : CorrErr
  deriving Repr, DecidableEq

/-- `suspicious(i)` from the correction pass.  The bindings `ov`, `el`
and `r` are computed faithfully; `r` is always truthy (it is at worst
`{}`), so the `if (!r) return false` line is never taken, and evaluation
then reaches `const tooWide = vp && …`, which throws
`ReferenceError: vp is not defined`. -/
def suspiciousCP (parsed : ParsedGuide) (els : List SElem) (i : ℕ) : Except CorrErr Bool :=
  let _ov := overlayAt parsed.overlays i
  let _el : Option SElem :=
    match parsed.target_indexes with
    | some ts =>
        match ts.get? i with
        | some idx => if jsIsInteger idx then elemAt els idx.toIntD else none
        | none => none
    | none => none
  Except.error CorrErr.vpNotDefined

/-- The `needCorrection` scan: `for (let i = 0; i < stepCount; i++) { if (suspicious(i)) … }`. -/
def needCorrectionFrom (parsed : ParsedGuide) (els : List SElem) (stepCount : ℕ)
    (i : ℕ) : Except CorrErr Bool :=
  if _h : i < stepCount then
    match suspiciousCP parsed els i with
    | .error e => .error e
    | .ok true => .ok true
    | .ok false => needCorrectionFrom parsed els stepCount (i + 1)
  else .ok false
termination_by stepCount - i
decreasing_by omega

/-- The try-block of the correction pass: scan for a suspicious target;
throw `skip-correction` when none is found.  The replacement loop at
server.js lines 774-805 is dead code — `suspiciousCP` always throws, so
the scan never yields `true` (`needCorrectionFrom_result`) — and is
modelled by returning `parsed` unchanged in that unreachable branch. -/
def correctionBody (parsed : ParsedGuide) (els : List SElem) (stepCount : ℕ) :
    Except CorrErr ParsedGuide := do
  let need ← needCorrectionFrom parsed els stepCount 0
  if need then pure parsed
  else Except.error CorrErr.skipCorrection

/-- The whole correction pass with its entry conditions (web-guide
overlay mode, a steps array, a non-empty element list, a non-screenshot
coordinate space) and the surrounding `try`/`catch` that restores
`parsed` on any error. -/
def correctionPass (isWebGuide wantsOverlay : Bool) (els : List SElem)
    (parsed : ParsedGuide) : ParsedGuide :=
  if isWebGuide ∧ wantsOverlay ∧ parsed.steps.isSome ∧ els ≠ [] then
    if coordSpaceLower parsed ≠ some "screenshot" then
      match correctionBody parsed els
        (min (match parsed.steps with | some l => l.length | none => 0) 10) with
      | .error _ => parsed
      | .ok p2 => p2
    else parsed
  else parsed

theorem needCorrectionFrom_result (parsed : ParsedGuide) (els : List SElem)
    (stepCount i : ℕ) :
    needCorrectionFrom parsed els stepCount i =
      if i < stepCount then Except.error CorrErr.vpNotDefined else Except.ok false := by
  rw [needCorrectionFrom]
  split
  · rfl
  · rfl

theorem correctionBody_error (parsed : ParsedGuide) (els : List SElem) (stepCount : ℕ) :
    ∃ e, correctionBody parsed els stepCount = .error e := by
  unfold correctionBody
  rw [needCorrectionFrom_result]
  by_cases h : 0 < stepCount
  · rw [if_pos h]
    exact ⟨.vpNotDefined, rfl⟩
  · rw [if_neg h]
    exact ⟨.skipCorrection, rfl⟩

/-- C1: the suspicion-correction pass never changes anything.  Because
`suspicious()` dereferences the out-of-scope identifier `vp`, its first
invocation throws a `ReferenceError` that the surrounding `catch`
swallows (and with zero steps the pass throws `skip-correction`
instead), so no target is ever re-scored or replaced — for every input
the parsed response is returned untouched, contradicting the claimed
re-matching behaviour. -/
theorem c1_correction_pass_noop (iwg wo : Bool) (els : List SElem)
    (parsed : ParsedGuide) :
    correctionPass iwg wo els parsed = parsed := by
  unfold correctionPass
  split
  · split
    · obtain ⟨e, he⟩ := correctionBody_error parsed els
        (min (match parsed.steps with | some l => l.length | none => 0) 10)
      rw [he]
    · rfl
  · rfl

/-! ## String helpers with JavaScript semantics

Used by the element matcher (`scored`, server.js lines 530-654).
`toLowerCase` is modelled by `Char.toLower` (ASCII case mapping — the
Korean text involved has no case), `\s` by `Char.isWhitespace`, and
`String.prototype.includes` by the infix test on character lists.
JavaScript string `length` counts UTF-16 units; `List.length` counts
code points — they agree on the BMP text these heuristics see. -/

/-- Collapse every whitespace run to a single space
(`.replace(/\s+/g, " ")`); `prevWs` records whether the previous
character was part of a run. -/
def collapseWsAux : Bool → List Char → List Char
  | _, [] => []
  | prevWs, c :: rest =>
      if c.isWhitespace then
        if prevWs then collapseWsAux true rest
        else ' ' :: collapseWsAux true rest
      else c :: collapseWsAux false rest

/-- `.trim()`. -/
def trimChars (cs : List Char) : List Char :=
  ((cs.dropWhile Char.isWhitespace).reverse.dropWhile Char.isWhitespace).reverse

/-- `normalize(s) = String(s || "").toLowerCase().replace(/\s+/g, " ").trim()`. -/
def normalize (s : String) : String :=
  String.mk (trimChars (collapseWsAux false (s.data.map Char.toLower)))

/-- `needle` is a prefix of `hay` (character-exact). -/
def listStartsWith : List Char → List Char → Bool
  | [], _ => true
  | _ :: _, [] => false
  | a :: as, b :: bs => a == b && listStartsWith as bs

/-- `needle` occurs contiguously inside `hay`. -/
def listHasInfix (needle : List Char) : List Char → Bool
  | [] => needle.isEmpty
  | c :: rest => listStartsWith needle (c :: rest) || listHasInfix needle rest

/-- `hay.includes(needle)`. -/
def strIncludes (hay needle : String) : Bool :=
  listHasInfix needle.data hay.data

/-- The punctuation class stripped by `tokenize`
(`[*_`~!@#$%^&()\[\]{};:,\.?<>\-\/=+|\\]`). -/
def punctChars : List Char :=
  ['*', '_', '`', '~', '!', '@', '#', '$', '%', '^', '&', '(', ')', '[', ']',
   '\x7b', '\x7d', ';', ':', ',', '.', '?', '<', '>', '-', '/', '=', '+', '|', '\\']

/-- The stop-word list of the synthesis-pass tokenizer (server.js line
535, duplicates as in the source). -/
def stopWords : List String :=
  ["click", "press", "select", "choose", "open", "go", "the", "and", "for", "to",
   "in", "on", "of", "with", "버튼", "클릭", "선택", "누르", "열", "에서", "하기",
   "합니다", "하기", "으로", "으로", "및"]

/-- Split on single whitespace characters.  JavaScript splits on
whitespace *runs*, which differs only by extra empty pieces — and both
are followed by a filter that drops falsy (empty) tokens, under which
the two splits agree. -/
def splitOnWs : List Char → List (List Char)
  | [] => [[]]
  | c :: rest =>
      if c.isWhitespace then [] :: splitOnWs rest
      else
        match splitOnWs rest with
        | [] => [[c]]
        | h :: t => (c :: h) :: t

/-- `tokenize(s)`: normalize, strip punctuation to spaces, split on
whitespace, keep truthy tokens of length ≥ 2 that are not stop words. -/
def tokenize (s : String) : List String :=
  (((normalize s).data.map (fun c => if punctChars.contains c then ' ' else c)
      |> splitOnWs).map String.mk).filter
    (fun w => w ≠ "" && w.length ≥ 2 && !(stopWords.contains w))

/-- The quote characters of the phrase regex `["'“”‘’]`. -/
def isQuoteChar (c : Char) : Bool :=
  c == '"' || c == '\'' || c == '“' || c == '”' || c == '‘' || c == '’'

/-- Scan to the next quote character: returns the (quote-free) content
before it and the remainder after it, or `none` when no quote follows. -/
def splitAtQuote : List Char → Option (List Char × List Char)
  | [] => none
  | c :: rest =>
      if isQuoteChar c then some ([], rest)
      else
        match splitAtQuote rest with
        | some (content, r) => some (c :: content, r)
        | none => none

theorem splitAtQuote_length :
    ∀ (l content r : List Char), splitAtQuote l = some (content, r) → r.length < l.length := by
  intro l
  induction l with
  | nil => intro content r h; cases h
  | cons c rest ih =>
      intro content r h
      unfold splitAtQuote at h
      by_cases hq : isQuoteChar c = true
      · rw [if_pos hq] at h
        cases h
        simp
      · rw [if_neg hq] at h
        cases hsp : splitAtQuote rest with
        | none => rw [hsp] at h; cases h
        | some pr =>
            rw [hsp] at h
            cases h
            have := ih pr.1 pr.2 (by rw [hsp])
            simp only [List.length_cons]
            omega

/-- `extractPhrases` scanning loop for the global regex
`/["'“”‘’]([^"'“”‘’]+)["'“”‘’]/g`: at each opening quote, a nonempty
quote-free run closed by another quote yields `normalize(content)` and
scanning resumes after the closing quote; an empty run or a missing
closing quote makes the engine retry from the next position.  The
recursion is driven by a fuel argument (structural, hence kernel
evaluable); every step strictly shortens the input, so a fuel of
`cs.length` — as supplied by `scanPhrases` — never runs out. -/
def scanPhrasesFuel : ℕ → List Char → List String
  | 0, _ => []
  | _ + 1, [] => []
  | fuel + 1, c :: rest =>
      if isQuoteChar c then
        match splitAtQuote rest with
        | some (content, r) =>
            if content ≠ [] then
              normalize (String.mk content) :: scanPhrasesFuel fuel r
            else scanPhrasesFuel fuel rest
        | none => scanPhrasesFuel fuel rest
      else scanPhrasesFuel fuel rest

def scanPhrases (cs : List Char) : List String :=
  scanPhrasesFuel cs.length cs

/-- `extractPhrases(s)`. -/
def extractPhrases (s : String) : List String :=
  scanPhrases s.data

/-! ### Word-boundary regex tests (`\b…\b` with the JS `\w` class) -/

/-- The JavaScript `\w` class: `[A-Za-z0-9_]`.  Korean characters are
*not* word characters, which matters for `\b` around Korean literals. -/
def isJsWordChar (c : Char) : Bool :=
  ('a' ≤ c && c ≤ 'z') || ('A' ≤ c && c ≤ 'Z') || ('0' ≤ c && c ≤ '9') || c == '_'

/-- `\b` before a match starting with `cur`, with `prev` the preceding
character (`none` at the string start, treated as non-word). -/
def boundaryOk (prev : Option Char) (cur : Char) : Bool :=
  match prev with
  | none => isJsWordChar cur
  | some p => isJsWordChar p != isJsWordChar cur

/-- `\b` after a match ending in `last`, with `next` the following
character (`none` at the string end). -/
def boundaryEnd (last : Char) (next : Option Char) : Bool :=
  match next with
  | none => isJsWordChar last
  | some n => isJsWordChar last != isJsWordChar n

/-- Case-insensitive literal match (the `/i` flag); returns the last
matched input character and the remaining input. -/
def matchLitCI : List Char → List Char → Option (Option Char × List Char)
  | [], rest => some (none, rest)
  | _ :: _, [] => none
  | p :: ps, c :: cs =>
      if p.toLower == c.toLower then
        match matchLitCI ps cs with
        | some (none, rest) => some (some c, rest)
        | some (some l, rest) => some (some l, rest)
        | none => none
      else none

/-- Match a `\s*`-separated chunk sequence (each chunk nonempty and
starting with a non-whitespace character, so the maximal-run gap is the
only viable one); returns the last matched input character and the rest. -/
def matchChunks : List (List Char) → List Char → Option (Char × List Char)
  | [], _ => none
  | [chunk], input =>
      match matchLitCI chunk input with
      | some (some l, rest) => some (l, rest)
      | _ => none
  | chunk :: chunk2 :: more, input =>
      match matchLitCI chunk input with
      | some (_, rest) => matchChunks (chunk2 :: more) (rest.dropWhile Char.isWhitespace)
      | none => none

/-- One alternative of a `\b(A|B|…)\b` pattern matches at the current
position (with `prev` the character before it). -/
def altMatchesAt (alt : List (List Char)) (prev : Option Char) (input : List Char) : Bool :=
  match input with
  | [] => false
  | c :: _ =>
      match matchChunks alt input with
      | some (last, rest) => boundaryOk prev c && boundaryEnd last rest.head?
      | none => false

/-- `regex.test`: try every start position left to right. -/
def jsWordTestFrom (alts : List (List (List Char))) : Option Char → List Char → Bool
  | _, [] => false
  | prev, c :: cs =>
      (alts.any fun alt => altMatchesAt alt prev (c :: cs)) || jsWordTestFrom alts (some c) cs

/-- `/\b(alt1|alt2|…)\b/i.test(s)` where each alternative is a list of
literal chunks joined by `\s*` in the pattern. -/
def jsWordTest (alts : List (List String)) (s : String) : Bool :=
  jsWordTestFrom (alts.map fun alt => alt.map String.data) none s.data

/-- `/\b(start|launch|시작|인스턴스\s*시작|launch\s*instance|create\s*instance)\b/i.test(msg)`. -/
def userWantsStartRe (msg : String) : Bool :=
  jsWordTest [["start"], ["launch"], ["시작"], ["인스턴스", "시작"],
    ["launch", "instance"], ["create", "instance"]] msg

/-- `/\b(start|launch|시작)\b/i.test(stepText)`. -/
def stepMentionsStart (stepText : String) : Bool :=
  jsWordTest [["start"], ["launch"], ["시작"]] stepText

/-- `/\b(button|버튼|click|클릭)\b/i.test(stepText)`. -/
def mentionsButtonRe (stepText : String) : Bool :=
  jsWordTest [["button"], ["버튼"], ["click"], ["클릭"]] stepText

/-- Case-insensitive alternation without boundaries
(e.g. `/button|menuitem/i.test(s)`): substring search on the lowered
string, with lowercase patterns. -/
def reTestCI (pats : List String) (s : String) : Bool :=
  pats.any fun p => strIncludes (String.mk (s.data.map Char.toLower)) p

/-- `el.is_button || /button|menuitem/i.test(el.role||"") || /button/i.test(el.tag||"")`. -/
def isButtonLike (el : SElem) : Bool :=
  el.is_button || reTestCI ["button", "menuitem"] el.role || reTestCI ["button"] el.tag

/-! ### Colour parsing (`parseRgb` / `rgbToHsl`, server.js lines 549-559) -/

/-- Value of a nonempty digit run. -/
def digitsVal (ds : List Char) : ℕ :=
  ds.foldl (fun a c => a * 10 + (c.toNat - 48)) 0

/-- Parse `\d+`: the leading digit run and the rest. -/
def parseDigits (cs : List Char) : Option (ℕ × List Char) :=
  let ds := cs.takeWhile Char.isDigit
  if ds.isEmpty then none else some (digitsVal ds, cs.dropWhile Char.isDigit)

/-- The alpha component pattern `\d*\.?\d+`: digits and at most one
dot, nonempty, ending in a digit. -/
def validAlpha (cs : List Char) : Bool :=
  !cs.isEmpty && cs.all (fun c => c.isDigit || c == '.') &&
    (cs.filter (fun c => c == '.')).length ≤ 1 &&
    (match cs.getLast? with
     | some c => c.isDigit
     | none => false)

/-- After the third component: either `)` and end, or `,` alpha `)` end. -/
def parseRgbTail (cs : List Char) : Bool :=
  match cs with
  | [')'] => true
  | ',' :: r =>
      match r.reverse with
      | ')' :: restRev => validAlpha restRev.reverse
      | _ => false
  | _ => false

/-- `parseRgb(bg)`: strip whitespace, then match
`/^rgba?\((\d+),(\d+),(\d+)(?:,(\d*\.?\d+))?\)$/i` and return the three
colour components. -/
def parseRgb (bg : String) : Option (ℕ × ℕ × ℕ) :=
  let cs := (bg.data.filter (fun c => !c.isWhitespace)).map Char.toLower
  match cs with
  | 'r' :: 'g' :: 'b' :: rest =>
      let rest2 := match rest with
        | 'a' :: r => r
        | _ => rest
      match rest2 with
      | '(' :: r3 =>
          match parseDigits r3 with
          | some (d1, ',' :: r4) =>
              match parseDigits r4 with
              | some (d2, ',' :: r5) =>
                  match parseDigits r5 with
                  | some (d3, r6) => if parseRgbTail r6 then some (d1, d2, d3) else none
                  | none => none
              | _ => none
          | _ => none
      | _ => none
  | _ => none

/-- `rgbToHsl({r,g,b})` (exact rational arithmetic; the JS `switch(max)`
takes the first strictly-equal case). -/
def rgbToHsl (r g b : ℕ) : ℚ × ℚ × ℚ :=
  let r2 : ℚ := (r : ℚ) / 255
  let g2 : ℚ := (g : ℚ) / 255
  let b2 : ℚ := (b : ℚ) / 255
  let mx := max r2 (max g2 b2)
  let mn := min r2 (min g2 b2)
  let l := (mx + mn) / 2
  if mx = mn then (0, 0, l)
  else
    let d := mx - mn
    let s := if l > 1/2 then d / (2 - mx - mn) else d / (mx + mn)
    let h0 :=
      if mx = r2 then (g2 - b2) / d + (if g2 < b2 then (6 : ℚ) else 0)
      else if mx = g2 then (b2 - r2) / d + 2
      else (r2 - g2) / d + 4
    (h0 * 60, s, l)

/-- The orange-CTA condition at server.js lines 613-617.  Inside
`if (rgb) { const {h,s,l} = rgbToHsl(rgb); if (!Number.isNaN(h) && s >= 0.45 && …) { s += 2.0; } }`
the destructured `const s` (the saturation) shadows the score variable,
so `s += 2.0` assigns to a `const` and throws a `TypeError` whenever
this condition holds.  (`h` is never `NaN`: the divisor `d` is nonzero
in the branch that computes it.) -/
def orangeCta (bg : String) : Bool :=
  match parseRgb bg with
  | none => false
  | some (r, g, b) =>
      match rgbToHsl r g b with
      | (h, s, l) =>
          decide (s ≥ 45/100 ∧ l ≥ 30/100 ∧ l ≤ 78/100 ∧ h ≥ 20 ∧ h ≤ 50)

/-! ## The element matcher `scored` (server.js lines 562-628)

`scored` is fallible: when an examined (phrase-eligible) element has an
orange call-to-action background, the `s += 2.0` line assigns to the
shadowing `const s` and throws a `TypeError` that no handler inside the
`/chat` route catches (pass 2 is not inside a `try`), failing the whole
request with a 500 response. -/

inductive ScoreErr where
  | constAssign : ScoreErr
  deriving Repr, DecidableEq

/-- The additive score of one candidate element (the body of the
`for (let i = 0; …)` loop after the text/phrase guards), in source
order; `txt` is the element's normalised text. -/
def elemScore (p : ChatPayload) (stepText : String) (words phrases : List String)
    (txt : String) (el : SElem) : Except ScoreErr ℚ :=
  let s1 : ℚ := 0 + 2 * ((words.filter (fun w => strIncludes txt w)).length : ℚ)
  let s2 := s1 + 6 * ((phrases.filter (fun ph => ph ≠ "" && strIncludes txt ph)).length : ℚ)
  let s3 := if isButtonLike el then s2 + 5/2 else s2
  let s4 := if el.visible = some false then s3 - 5/2 else s3
  let r := rectOf (some el)
  let s5 := if (r.width.getD 0) ≥ 40 ∧ (r.height.getD 0) ≥ 24 then s4 + 1/2 else s4
  let s6 := if el.in_nav then s5 - 3 else s5
  let s7 := if el.in_header then s6 - 7/2 else s6
  let s8 := match p.contentLeft, r.x with
    | some cl, some x => if x < cl + 10 then s7 - 2 else s7 + 7/10
    | _, _ => s7
  let s9 := match p.page_viewport_rect, r.x, r.y with
    | some vp, some x, some y =>
        let cx := x + (r.width.getD 0) / 2
        let cy := y + (r.height.getD 0) / 2
        let inH := cx ≥ 0 ∧ cx ≤ vp.width + p.scrollX + 20
        let inV := cy ≥ p.scrollY - 100 ∧ cy ≤ p.scrollY + vp.height + 100
        let sA := if inH ∧ inV then s8 + 1/2 else s8
        if cy < p.scrollY + 120 then sA - 4 else sA
    | _, _, _ => s8
  let area := (r.width.getD 0) * (r.height.getD 0)
  let s10 := if area ≠ 0 then s9 + min (area / 30000) (12/10) else s9
  let s11 := match p.page_viewport_rect with
    | some vp =>
        let wBig := match r.width with
          | some w => decide (w > vp.width * (8/10))
          | none => false
        let hBig := match r.height with
          | some h2 => decide (h2 > vp.height * (8/10))
          | none => false
        if wBig || hBig then s10 - 3 else s10
    | none => s10
  if orangeCta el.styleBg then Except.error ScoreErr.constAssign
  else
    let s13 := if userWantsStartRe p.trimmedMessage && stepMentionsStart stepText &&
        reTestCI ["시작", "launch", "start"] txt then s11 + 12/10 else s11
    let s14 := if mentionsButtonRe stepText && !(isButtonLike el) then s13 - 4 else s13
    Except.ok s14

/-- The phrase pre-scan (server.js lines 567-574): indices of elements
whose nonempty normalised text contains at least one truthy phrase. -/
def phraseMatches (els : List SElem) (phrases : List String) : List ℕ :=
  (List.range els.length).filter fun i =>
    match els.get? i with
    | some el =>
        normalize el.text ≠ "" &&
          phrases.any (fun ph => ph ≠ "" && strIncludes (normalize el.text) ph)
    | none => false

/-- The running best of the matcher loop (`{ idx: -1, score: 0 }`). -/
structure MatchBest where
  idx : ℤ
  score : ℚ
  deriving Repr, DecidableEq

/-- The matcher loop: skip empty-text elements, apply the phrase hard
filter, score the rest, keep a strictly better candidate. -/
def scoredAux (p : ChatPayload) (stepText : String) (words phrases : List String)
    (pm : List ℕ) : ℕ → List SElem → MatchBest → Except ScoreErr MatchBest
  | _, [], best => .ok best
  | i, el :: rest, best =>
      if normalize el.text = "" then scoredAux p stepText words phrases pm (i + 1) rest best
      else if phrases ≠ [] ∧ i ∉ pm then scoredAux p stepText words phrases pm (i + 1) rest best
      else
        match elemScore p stepText words phrases (normalize el.text) el with
        | .error e => .error e
        | .ok s =>
            scoredAux p stepText words phrases pm (i + 1) rest
              (if s > best.score then { idx := (i : ℤ), score := s } else best)

/-- `scored(stepText)`. -/
def scored (p : ChatPayload) (stepText : String) : Except ScoreErr MatchBest :=
  scoredAux p stepText (tokenize stepText) (extractPhrases stepText)
    (phraseMatches p.elements (extractPhrases stepText)) 0 p.elements
    { idx := -1, score := 0 }

/-! ## Claim C6: quoted phrases are a hard filter -/

theorem scoredAux_pm (p : ChatPayload) (stepText : String) (words phrases : List String)
    (pm : List ℕ) :
    ∀ (els : List SElem) (i : ℕ) (best b : MatchBest),
      scoredAux p stepText words phrases pm i els best = .ok b →
      phrases ≠ [] →
      (0 ≤ best.idx → best.idx.toNat ∈ pm) →
      (0 ≤ b.idx → b.idx.toNat ∈ pm) := by
  intro els
  induction els with
  | nil =>
      intro i best b h hph hbest
      unfold scoredAux at h
      injection h with h2
      rw [← h2]
      exact hbest
  | cons el rest ih =>
      intro i best b h hph hbest
      unfold scoredAux at h
      by_cases h1 : normalize el.text = ""
      · rw [if_pos h1] at h
        exact ih (i + 1) best b h hph hbest
      · rw [if_neg h1] at h
        by_cases h2 : phrases ≠ [] ∧ i ∉ pm
        · rw [if_pos h2] at h
          exact ih (i + 1) best b h hph hbest
        · rw [if_neg h2] at h
          cases hsc : elemScore p stepText words phrases (normalize el.text) el with
          | error e => rw [hsc] at h; cases h
          | ok s =>
              rw [hsc] at h
              refine ih (i + 1) _ b h hph ?_
              by_cases h3 : s > best.score
              · rw [if_pos h3]
                intro _
                have hi : i ∈ pm := by
                  by_contra hni
                  exact h2 ⟨hph, hni⟩
                simpa using hi
              · rw [if_neg h3]
                exact hbest

/-- C6: whenever the instruction text contains at least one quoted
phrase, the matcher can only return an element whose normalised text
contains one of the (truthy) extracted phrases — phrase-less elements
are excluded from candidacy entirely, regardless of their would-be
score. -/
theorem c6_phrase_hard_filter (p : ChatPayload) (stepText : String) (b : MatchBest)
    (hph : extractPhrases stepText ≠ [])
    (hok : scored p stepText = .ok b)
    (hidx : 0 ≤ b.idx) :
    ∃ el, p.elements.get? b.idx.toNat = some el ∧ normalize el.text ≠ "" ∧
      ∃ ph ∈ extractPhrases stepText, ph ≠ "" ∧
        strIncludes (normalize el.text) ph = true := by
  have hmem : b.idx.toNat ∈ phraseMatches p.elements (extractPhrases stepText) := by
    refine scoredAux_pm p stepText (tokenize stepText) (extractPhrases stepText)
      (phraseMatches p.elements (extractPhrases stepText)) p.elements 0
      { idx := -1, score := 0 } b hok hph ?_ hidx
    intro hcontra
    norm_num at hcontra
  unfold phraseMatches at hmem
  rw [List.mem_filter] at hmem
  obtain ⟨-, hf⟩ := hmem
  cases hel : p.elements.get? b.idx.toNat with
  | none =>
      rw [hel] at hf
      exact Bool.noConfusion hf
  | some el =>
      rw [hel] at hf
      simp only [Bool.and_eq_true, decide_eq_true_eq, List.any_eq_true] at hf
      obtain ⟨hne2, ph, hphm, hc1, hc2⟩ := hf
      exact ⟨el, rfl, hne2, ph, hphm, hc1, hc2⟩

/-- A concrete element for exercising the phrase filter. -/
def c6El : SElem :=
  { text := "Start Now", role := "", tag := "", is_button := false
    visible := none, in_nav := false, in_header := false, styleBg := "", rect := none }

def c6P : ChatPayload :=
  { elements := [c6El], page_viewport_rect := none, scrollX := 0, scrollY := 0
    contentLeft := none, trimmedMessage := "" }

theorem c6_phrase_hard_filter_witness :
    extractPhrases "'start'" ≠ [] ∧
    scored c6P "'start'" = Except.ok { idx := 0, score := 6 } ∧
    ∃ el, c6P.elements.get? ((0 : ℤ)).toNat = some el ∧ normalize el.text ≠ "" ∧
      ∃ ph ∈ extractPhrases "'start'", ph ≠ "" ∧
        strIncludes (normalize el.text) ph = true := by
  have htok : tokenize "'start'" = ["'start'"] := by decide
  have hphr : extractPhrases "'start'" = ["start"] := by decide
  have hpm : phraseMatches [c6El] ["start"] = [0] := by decide
  have htxt : normalize c6El.text = "start now" := by decide
  have hne : extractPhrases "'start'" ≠ [] := by rw [hphr]; decide
  have hscore : elemScore c6P "'start'" ["'start'"] ["start"] "start now" c6El =
      Except.ok 6 := by
    have hw1 : strIncludes "start now" "'start'" = false := by decide
    have hp1 : strIncludes "start now" "start" = true := by decide
    have hbtn : isButtonLike c6El = false := by decide
    have horange : orangeCta "" = false := by decide
    have hmb : mentionsButtonRe "'start'" = false := by decide
    have huw : userWantsStartRe "" = false := by decide
    have hsne : (decide (("start" : String) = "")) = false := by decide
    unfold elemScore
    norm_num [c6P, rectOf, emptyRect, hw1, hp1, hbtn, horange, hmb, huw,
      show c6El.styleBg = "" from rfl, show c6El.visible = none from rfl,
      show c6El.rect = none from rfl, show c6El.in_nav = false from rfl,
      show c6El.in_header = false from rfl]
    rw [if_neg (fun h => Option.noConfusion h)]
    norm_num [hsne, hp1, List.filter_cons, List.filter_nil]
  have hok : scored c6P "'start'" = Except.ok { idx := 0, score := 6 } := by
    unfold scored
    rw [htok, hphr, show c6P.elements = [c6El] from rfl, hpm]
    unfold scoredAux
    rw [if_neg (by rw [htxt]; decide)]
    rw [if_neg (by decide : ¬((["start"] : List String) ≠ [] ∧ (0 : ℕ) ∉ ([0] : List ℕ)))]
    rw [htxt, hscore]
    norm_num [scoredAux]
  refine ⟨hne, hok, ?_⟩
  simpa using c6_phrase_hard_filter c6P "'start'" { idx := 0, score := 6 } hne hok (by norm_num)

/-! ## Claim C7: no duplicate element assignment

Pass 2 (matcher synthesis, server.js lines 630-654) runs the matcher per
step with a `used` set so two steps cannot claim the same element.
Pass 3 (IoU mapping, lines 658-699) has no such set.  The two passes are
mutually exclusive in one request: pass 2 only runs when
`target_indexes` is empty and it always installs a non-empty
`target_indexes` array, whereas pass 3 only runs when `target_indexes`
is still empty. -/

/-- The step text used by the synthesis pass (server.js line 638):
`typeof step === 'string' ? step : (step?.title || step?.description || step?.step || "")`. -/
def stepTextOf : JStep → String
  | .str s => s
  | .obj _ t d st => firstTruthyStr [t, d, st]

/-- The synthesis loop.  The source iterates `i` from 0 to
`Math.min(6, steps.length) - 1` over `parsed.steps[i]`; here the first
six steps are materialised as the list being recursed over, with `i`
the running index. -/
def pass2Go (p : ChatPayload) :
    ℕ → List JStep → List (Option ℕ) × List (Option OvOut) × List ℕ →
      Except ScoreErr (List (Option ℕ) × List (Option OvOut) × List ℕ)
  | _, [], st => .ok st
  | i, stp :: rest, (targets, ovs, used) =>
      match scored p (stepTextOf stp) with
      | .error e => .error e
      | .ok best =>
          if 0 ≤ best.idx ∧ best.score ≥ 5/2 ∧ best.idx.toNat ∉ used then
            pass2Go p (i + 1) rest
              (targets.set i (some best.idx.toNat),
               ovs.set i (some
                 { x := ((rectOf (elemAt p.elements best.idx)).left <|>
                     (rectOf (elemAt p.elements best.idx)).x).getD 0
                   y := ((rectOf (elemAt p.elements best.idx)).top <|>
                     (rectOf (elemAt p.elements best.idx)).y).getD 0
                   width := (rectOf (elemAt p.elements best.idx)).width.getD 0
                   height := (rectOf (elemAt p.elements best.idx)).height.getD 0
                   label := stepTextOf stp, step_index := i }),
               best.idx.toNat :: used)
          else pass2Go p (i + 1) rest (targets, ovs, used)

/-- Pass 2 entry: `target_indexes` and `overlays` start as
`steps.length`-long null arrays, the loop covers the first six steps,
and the final `used` set is discarded. -/
def pass2Synthesize (p : ChatPayload) (steps : List JStep) :
    Except ScoreErr (List (Option ℕ) × List (Option OvOut)) :=
  match pass2Go p 0 (steps.take 6)
      (List.replicate steps.length none, List.replicate steps.length none, []) with
  | .error e => .error e
  | .ok (targets, ovs, _) => .ok (targets, ovs)

/-- Every assigned target index is recorded in the `used` set. -/
def targetsBound (targets : List (Option ℕ)) (used : List ℕ) : Prop :=
  ∀ i a, targets.get? i = some (some a) → a ∈ used

/-- No element index is assigned to two distinct steps. -/
def targetsNodup (targets : List (Option ℕ)) : Prop :=
  ∀ i j a b, i ≠ j → targets.get? i = some (some a) →
    targets.get? j = some (some b) → a ≠ b

theorem setAssign_inv (t : List (Option ℕ)) (u : List ℕ) (pos x : ℕ)
    (hb : targetsBound t u) (hn : targetsNodup t) (hx : x ∉ u) :
    targetsBound (t.set pos (some x)) (x :: u) ∧ targetsNodup (t.set pos (some x)) := by
  have hset_at : ∀ a, (t.set pos (some x)).get? pos = some (some a) → a = x := by
    intro a h
    rw [List.get?_set_eq] at h
    cases ht : t.get? pos with
    | none => rw [ht] at h; cases h
    | some o =>
        rw [ht] at h
        have h' : some (some x) = some (some a) := h
        injection h' with h2
        injection h2 with h3
        exact h3.symm
  have hset_ne : ∀ j, j ≠ pos → (t.set pos (some x)).get? j = t.get? j := by
    intro j hj
    exact List.get?_set_ne _ _ (fun h => hj h.symm)
  constructor
  · intro j a hj
    by_cases hjp : j = pos
    · subst hjp
      rw [hset_at a hj]
      exact List.mem_cons_self _ _
    · rw [hset_ne j hjp] at hj
      exact List.mem_cons_of_mem _ (hb j a hj)
  · intro i j a b hij hi hj
    by_cases hip : i = pos
    · subst hip
      have hjp : j ≠ i := fun h => hij h.symm
      rw [hset_ne j hjp] at hj
      rw [hset_at a hi]
      intro hxa
      exact hx (hxa ▸ hb j b hj)
    · by_cases hjp : j = pos
      · subst hjp
        rw [hset_ne i hip] at hi
        rw [hset_at b hj]
        intro hxa
        exact hx (hxa ▸ hb i a hi)
      · rw [hset_ne i hip] at hi
        rw [hset_ne j hjp] at hj
        exact hn i j a b hij hi hj

theorem pass2Go_nodup (p : ChatPayload) :
    ∀ (rest : List JStep) (i : ℕ) (t : List (Option ℕ)) (ovs : List (Option OvOut))
      (u : List ℕ) (out : List (Option ℕ) × List (Option OvOut) × List ℕ),
      targetsBound t u → targetsNodup t →
      pass2Go p i rest (t, ovs, u) = .ok out →
      targetsNodup out.1 := by
  intro rest
  induction rest with
  | nil =>
      intro i t ovs u out hb hn h
      unfold pass2Go at h
      injection h with h2
      rw [← h2]
      exact hn
  | cons stp rest ih =>
      intro i t ovs u out hb hn h
      unfold pass2Go at h
      cases hs : scored p (stepTextOf stp) with
      | error e => rw [hs] at h; cases h
      | ok best =>
          simp only [hs] at h
          by_cases hc : 0 ≤ best.idx ∧ best.score ≥ 5/2 ∧ best.idx.toNat ∉ u
          · rw [if_pos hc] at h
            obtain ⟨hbd, hnd⟩ := setAssign_inv t u i best.idx.toNat hb hn hc.2.2
            exact ih (i + 1) _ _ _ out hbd hnd h
          · rw [if_neg hc] at h
            exact ih (i + 1) t ovs u out hb hn h

/-- C7 (amended): within the matcher-synthesis pass (pass 2), no element
index is ever assigned to two different steps — the `used` set
guarantees that any two assigned entries of the produced
`target_indexes` differ.  (The IoU-based pass has no such guarantee;
see the counterexample.) -/
theorem c7_pass2_no_duplicate_targets (p : ChatPayload) (steps : List JStep)
    (targets : List (Option ℕ)) (ovs : List (Option OvOut))
    (hok : pass2Synthesize p steps = .ok (targets, ovs)) :
    ∀ i j a b, i ≠ j → targets.get? i = some (some a) →
      targets.get? j = some (some b) → a ≠ b := by
  unfold pass2Synthesize at hok
  cases hgo : pass2Go p 0 (steps.take 6)
      (List.replicate steps.length none, List.replicate steps.length none, []) with
  | error e => rw [hgo] at hok; cases hok
  | ok st =>
      obtain ⟨t2, ovs2, u2⟩ := st
      rw [hgo] at hok
      injection hok with h2
      have hrepl : ∀ (i : ℕ) (a : ℕ),
          (List.replicate steps.length (none : Option ℕ)).get? i = some (some a) → False := by
        intro i a h
        rw [List.get?_eq_getElem?, List.getElem?_replicate] at h
        by_cases hi : i < steps.length
        · rw [if_pos hi] at h; cases h
        · rw [if_neg hi] at h; cases h
      have hnd := pass2Go_nodup p (steps.take 6) 0
        (List.replicate steps.length none) (List.replicate steps.length none) []
        (t2, ovs2, u2) (fun i a h => absurd (hrepl i a h) (fun f => f))
        (fun i j a b _ hi _ => absurd (hrepl i a hi) (fun f => f)) hgo
      have ht : t2 = targets := congrArg Prod.fst h2
      rw [← ht]
      exact hnd

/-! ### Pass 3: the IoU overlay-to-element mapping (server.js 658-699)

This pass runs when the model supplied overlays but no target indexes.
It has no `used` set, so the no-duplicate invariant fails here. -/

/-- A plain document-space rectangle as used inside the IoU pass. -/
structure DRect where
  x : ℚ
  y : ℚ
  width : ℚ
  height : ℚ
  deriving Repr, DecidableEq

/-- `iou(a, b)` (server.js 664-672). -/
def iou (a b : DRect) : ℚ :=
  let ax2 := a.x + a.width; let ay2 := a.y + a.height
  let bx2 := b.x + b.width; let by2 := b.y + b.height
  let x1 := max a.x b.x; let y1 := max a.y b.y
  let x2 := min ax2 bx2; let y2 := min ay2 by2
  let iw := max 0 (x2 - x1); let ih := max 0 (y2 - y1)
  let inter := iw * ih
  let ua := a.width * a.height + b.width * b.height - inter
  if ua > 0 then inter / ua else 0

/-- `toDoc(ov)`: `Number(ov.x || 0)` maps a falsy (`0`/`NaN`) field to 0. -/
def toDoc (ov : NOverlay) : DRect :=
  { x := jsNumOr0 ov.x, y := jsNumOr0 ov.y
    width := jsNumOr0 ov.width, height := jsNumOr0 ov.height }

/-- `toDocFromViewport(ov)`: same, then the captured scroll is added. -/
def toDocFromViewport (sx sy : ℚ) (ov : NOverlay) : DRect :=
  { x := jsNumOr0 ov.x + sx, y := jsNumOr0 ov.y + sy
    width := jsNumOr0 ov.width, height := jsNumOr0 ov.height }

/-- The element rectangle as read inside the pass 3 inner loop:
`{ x: Number(r.left ?? r.x ?? 0), y: Number(r.top ?? r.y ?? 0),
width: Number(r.width || 0), height: Number(r.height || 0) }`. -/
def elemDocRect (r : SRect) : DRect :=
  { x := (r.left <|> r.x).getD 0, y := (r.top <|> r.y).getD 0
    width := r.width.getD 0, height := r.height.getD 0 }

/-- The running best of the pass 3 inner loop
(`{ idx: -1, score: -1, rect: null }`). -/
structure IouBest where
  idx : ℤ
  score : ℚ
  rect : Option DRect
  deriving Repr, DecidableEq

/-- The inner loop over `elList` (server.js 682-686): the candidate with
the strictly highest `max(iou(candA, er), iou(candB, er))` wins. -/
def iouBestGo (candA candB : DRect) : ℕ → List SElem → IouBest → IouBest
  | _, [], best => best
  | j, el :: rest, best =>
      let er := elemDocRect (rectOf (some el))
      let s := max (iou candA er) (iou candB er)
      iouBestGo candA candB (j + 1) rest
        (if s > best.score then { idx := (j : ℤ), score := s, rect := some er } else best)

/-- One repaired overlay (server.js 689).  The source also attaches
`label: (parsed.steps?.[i] || '')` — possibly a whole step object; the
label is irrelevant to target assignment and is omitted here. -/
structure RepairedOv where
  x : ℚ
  y : ℚ
  width : ℚ
  height : ℚ
  step_index : ℕ
  deriving Repr, DecidableEq

/-- The pass 3 outer loop (server.js 677-691): null overlays are
skipped, and an element index is assigned whenever the best IoU score
is positive — with no check against indices already assigned to
earlier overlays.  (When `best.idx >= 0` the source reads `best.rect`,
which is non-null exactly then; the `none` arm is unreachable.) -/
def pass3Go (els : List SElem) (sx sy : ℚ) :
    ℕ → List (Option NOverlay) → List (Option ℕ) × List (Option RepairedOv) →
      List (Option ℕ) × List (Option RepairedOv)
  | _, [], st => st
  | i, none :: rest, st => pass3Go els sx sy (i + 1) rest st
  | i, some ov :: rest, (targets, rep) =>
      let candA := toDoc ov
      let candB := toDocFromViewport sx sy ov
      let best := iouBestGo candA candB 0 els { idx := -1, score := -1, rect := none }
      if 0 ≤ best.idx ∧ best.score > 0 then
        match best.rect with
        | some er =>
            pass3Go els sx sy (i + 1) rest
              (targets.set i (some best.idx.toNat),
               rep.set i (some (RepairedOv.mk er.x er.y er.width er.height i)))
        | none => pass3Go els sx sy (i + 1) rest (targets, rep)
      else pass3Go els sx sy (i + 1) rest (targets, rep)

/-- Pass 3 entry: `target_indexes` and `repaired` start as
`overlays.length`-long null arrays. -/
def pass3Targets (p : ChatPayload) (ovs : List (Option NOverlay)) :
    List (Option ℕ) × List (Option RepairedOv) :=
  pass3Go p.elements p.scrollX p.scrollY 0 ovs
    (List.replicate ovs.length none, List.replicate ovs.length none)

/-- One concrete element whose stored rectangle is the 10x10 square at
the origin. -/
def c7CEl : SElem :=
  { text := "Save", role := "", tag := "", is_button := true
    visible := none, in_nav := false, in_header := false, styleBg := ""
    rect := some { left := none, top := none, x := some 0, y := some 0
                   width := some 10, height := some 10 } }

def c7CP : ChatPayload :=
  { elements := [c7CEl], page_viewport_rect := none, scrollX := 0, scrollY := 0
    contentLeft := none, trimmedMessage := "" }

/-- Two model overlays covering the same 10x10 square. -/
def c7COv : NOverlay :=
  { x := .val 0, y := .val 0, width := .val 10, height := .val 10
    label := "", step_index := none }

def c7COvs : List (Option NOverlay) := [some c7COv, some c7COv]

/-- C7, counterexample to the cross-pass claim: in the IoU-based
rectangle-to-element mapping pass, two distinct steps can be assigned
the same element index.  With one 10x10 element at the origin and two
model overlays over that same square, pass 3 assigns element 0 to both
step 0 and step 1. -/
theorem c7_counterexample :
    (pass3Targets c7CP c7COvs).1 = [some 0, some 0] := by
  have her : elemDocRect (rectOf (some c7CEl)) = ⟨0, 0, 10, 10⟩ := rfl
  have hiouA : iou (toDoc c7COv) ⟨0, 0, 10, 10⟩ = 1 := by
    simp only [iou, toDoc, c7COv, jsNumOr0]
    norm_num
  have hiouB : iou (toDocFromViewport 0 0 c7COv) ⟨0, 0, 10, 10⟩ = 1 := by
    simp only [iou, toDocFromViewport, c7COv, jsNumOr0]
    norm_num
  have hbest : iouBestGo (toDoc c7COv) (toDocFromViewport 0 0 c7COv) 0 [c7CEl]
      { idx := -1, score := -1, rect := none } =
      { idx := 0, score := 1, rect := some ⟨0, 0, 10, 10⟩ } := by
    simp only [iouBestGo, her, hiouA, hiouB]
    norm_num
  have hgo : pass3Targets c7CP c7COvs =
      ([some 0, some 0],
       [some (RepairedOv.mk 0 0 10 10 0), some (RepairedOv.mk 0 0 10 10 1)]) := by
    show pass3Go [c7CEl] 0 0 0 [some c7COv, some c7COv] ([none, none], [none, none]) = _
    simp only [pass3Go, hbest]
    norm_num
  rw [hgo]

/-- Two concrete elements with disjoint texts, for exercising pass 2. -/
def c7E0 : SElem :=
  { text := "alpha beta", role := "", tag := "", is_button := false
    visible := none, in_nav := false, in_header := false, styleBg := "", rect := none }

def c7E1 : SElem :=
  { text := "gamma delta", role := "", tag := "", is_button := false
    visible := none, in_nav := false, in_header := false, styleBg := "", rect := none }

def c7WP : ChatPayload :=
  { elements := [c7E0, c7E1], page_viewport_rect := none, scrollX := 0, scrollY := 0
    contentLeft := none, trimmedMessage := "" }

def c7WSteps : List JStep := [JStep.str "'alpha'", JStep.str "'gamma'"]

def c7WTargets : List (Option ℕ) := [some 0, some 1]

def c7WOvs : List (Option OvOut) :=
  [some { x := 0, y := 0, width := 0, height := 0, label := "'alpha'", step_index := 0 },
   some { x := 0, y := 0, width := 0, height := 0, label := "'gamma'", step_index := 1 }]

theorem c7_pass2_no_duplicate_targets_witness :
    pass2Synthesize c7WP c7WSteps = Except.ok (c7WTargets, c7WOvs) ∧ (0 : ℕ) ≠ (1 : ℕ) := by
  have htokA : tokenize "'alpha'" = ["'alpha'"] := by decide
  have hphrA : extractPhrases "'alpha'" = ["alpha"] := by decide
  have hpmA : phraseMatches [c7E0, c7E1] ["alpha"] = [0] := by decide
  have htokG : tokenize "'gamma'" = ["'gamma'"] := by decide
  have hphrG : extractPhrases "'gamma'" = ["gamma"] := by decide
  have hpmG : phraseMatches [c7E0, c7E1] ["gamma"] = [1] := by decide
  have hscoreA : elemScore c7WP "'alpha'" ["'alpha'"] ["alpha"] "alpha beta" c7E0 =
      Except.ok 6 := by
    have hw1 : strIncludes "alpha beta" "'alpha'" = false := by decide
    have hp1 : strIncludes "alpha beta" "alpha" = true := by decide
    have hbtn : isButtonLike c7E0 = false := by decide
    have horange : orangeCta "" = false := by decide
    have hmb : mentionsButtonRe "'alpha'" = false := by decide
    have huw : userWantsStartRe "" = false := by decide
    have hsne : (decide (("alpha" : String) = "")) = false := by decide
    unfold elemScore
    norm_num [c7WP, rectOf, emptyRect, hw1, hp1, hbtn, horange, hmb, huw,
      show c7E0.styleBg = "" from rfl, show c7E0.visible = none from rfl,
      show c7E0.rect = none from rfl, show c7E0.in_nav = false from rfl,
      show c7E0.in_header = false from rfl]
    rw [if_neg (fun h => Option.noConfusion h)]
    norm_num [hsne, hp1, List.filter_cons, List.filter_nil]
  have hscoreG : elemScore c7WP "'gamma'" ["'gamma'"] ["gamma"] "gamma delta" c7E1 =
      Except.ok 6 := by
    have hw1 : strIncludes "gamma delta" "'gamma'" = false := by decide
    have hp1 : strIncludes "gamma delta" "gamma" = true := by decide
    have hbtn : isButtonLike c7E1 = false := by decide
    have horange : orangeCta "" = false := by decide
    have hmb : mentionsButtonRe "'gamma'" = false := by decide
    have huw : userWantsStartRe "" = false := by decide
    have hsne : (decide (("gamma" : String) = "")) = false := by decide
    unfold elemScore
    norm_num [c7WP, rectOf, emptyRect, hw1, hp1, hbtn, horange, hmb, huw,
      show c7E1.styleBg = "" from rfl, show c7E1.visible = none from rfl,
      show c7E1.rect = none from rfl, show c7E1.in_nav = false from rfl,
      show c7E1.in_header = false from rfl]
    rw [if_neg (fun h => Option.noConfusion h)]
    norm_num [hsne, hp1, List.filter_cons, List.filter_nil]
  have hokA : scored c7WP "'alpha'" = Except.ok { idx := 0, score := 6 } := by
    unfold scored
    rw [htokA, hphrA, show c7WP.elements = [c7E0, c7E1] from rfl, hpmA]
    unfold scoredAux
    rw [show normalize c7E0.text = "alpha beta" from by decide]
    rw [if_neg (by decide : ¬(("alpha beta" : String) = ""))]
    rw [if_neg (by decide : ¬((["alpha"] : List String) ≠ [] ∧ (0 : ℕ) ∉ ([0] : List ℕ)))]
    simp only [hscoreA]
    unfold scoredAux
    rw [show normalize c7E1.text = "gamma delta" from by decide]
    rw [if_neg (by decide : ¬(("gamma delta" : String) = ""))]
    rw [if_pos (by decide : (["alpha"] : List String) ≠ [] ∧ (0 + 1 : ℕ) ∉ ([0] : List ℕ))]
    norm_num [scoredAux]
  have hokG : scored c7WP "'gamma'" = Except.ok { idx := 1, score := 6 } := by
    unfold scored
    rw [htokG, hphrG, show c7WP.elements = [c7E0, c7E1] from rfl, hpmG]
    unfold scoredAux
    rw [show normalize c7E0.text = "alpha beta" from by decide]
    rw [if_neg (by decide : ¬(("alpha beta" : String) = ""))]
    rw [if_pos (by decide : (["gamma"] : List String) ≠ [] ∧ (0 : ℕ) ∉ ([1] : List ℕ))]
    unfold scoredAux
    rw [show normalize c7E1.text = "gamma delta" from by decide]
    rw [if_neg (by decide : ¬(("gamma delta" : String) = ""))]
    rw [if_neg (by decide : ¬((["gamma"] : List String) ≠ [] ∧ (0 + 1 : ℕ) ∉ ([1] : List ℕ)))]
    simp only [hscoreG]
    norm_num [scoredAux]
  have hgo : pass2Go c7WP 0 [JStep.str "'alpha'", JStep.str "'gamma'"]
      ([none, none], [none, none], []) = Except.ok (c7WTargets, c7WOvs, [1, 0]) := by
    unfold pass2Go
    simp only [stepTextOf, hokA]
    rw [if_pos (⟨le_refl 0, by norm_num, by decide⟩ :
      (0 : ℤ) ≤ 0 ∧ (6 : ℚ) ≥ 5/2 ∧ (0 : ℤ).toNat ∉ ([] : List ℕ))]
    unfold pass2Go
    simp only [stepTextOf, hokG]
    rw [if_pos (⟨by norm_num, by norm_num, by decide⟩ :
      (0 : ℤ) ≤ 1 ∧ (6 : ℚ) ≥ 5/2 ∧ (1 : ℤ).toNat ∉ ([(0 : ℤ).toNat] : List ℕ))]
    rfl
  have hp : pass2Synthesize c7WP c7WSteps = Except.ok (c7WTargets, c7WOvs) := by
    unfold pass2Synthesize
    rw [show c7WSteps.take 6 = [JStep.str "'alpha'", JStep.str "'gamma'"] from rfl]
    rw [show List.replicate c7WSteps.length (none : Option ℕ) = [none, none] from rfl]
    rw [show List.replicate c7WSteps.length (none : Option OvOut) = [none, none] from rfl]
    rw [hgo]
  exact ⟨hp, c7_pass2_no_duplicate_targets c7WP c7WSteps c7WTargets c7WOvs hp 0 1 0 1
    (by decide) (by decide) (by decide)⟩

end WebGuide
